import Mathlib

/-!
# Verification of the reddit-mastermind weekly planner

A shallow embedding, in Lean 4, of the constraint-driven scheduling and
assignment pipeline of the `reddit-mastermind` repository, together with
proofs and refutations of its stated properties.

Modelling conventions:
* JavaScript numbers are modelled as `ℚ` (exact rational arithmetic);
  `Math.floor` is `Int.floor` and `Math.round x` is `⌊x + 1/2⌋`.
* `Date` values are modelled by their epoch-millisecond timestamp (a `ℚ`).
* Every call to `Math.random()` consumes the next value of an explicit
  random stream `r : Nat → ℚ`, threaded by index; theorems quantify over
  all streams whose values lie in `[0, 1)`.
* JavaScript `Map`/`Record` objects are modelled as insertion-ordered
  association lists, and `Set<string>` as an insertion-ordered duplicate-free
  list of strings.
-/

-- The Batteries rational-arithmetic primitives are `@[irreducible]`, which
-- blocks definitional evaluation of the concrete program runs below.
-- Restoring the default reducibility is harmless for soundness (reducibility
-- attributes never affect the kernel) and lets `decide` evaluate them.
set_option allowUnsafeReducibility true
attribute [semireducible] Rat.add Rat.mul Rat.sub Rat.ofScientific Rat.inv

namespace RM

/-- JavaScript `Math.floor`, kept inside the rationals. -/
def jsFloor (q : ℚ) : ℚ := (⌊q⌋ : ℚ)

/-- JavaScript `Math.round` (halves round toward positive infinity). -/
def jsRound (q : ℚ) : ℚ := (⌊q + 1/2⌋ : ℚ)

/-- Lower-cases a string character by character (`String.prototype.toLowerCase`
restricted to the simple case mapping). -/
def toLowerStr (s : String) : String := String.mk (s.data.map Char.toLower)

/-- Splits a character list at every character satisfying `p`
(auxiliary worker; the accumulator holds the current token reversed). -/
def splitCharsAux (p : Char → Bool) : List Char → List Char → List (List Char)
  | [], acc => [acc.reverse]
  | c :: cs, acc =>
    if p c then acc.reverse :: splitCharsAux p cs []
    else splitCharsAux p cs (c :: acc)

/-- Splits a string at whitespace characters.  JavaScript
`split(/\s+/)` collapses whitespace runs where this produces extra empty
tokens, but all callers immediately filter by a positive length bound,
so the two tokenisations agree after filtering. -/
def splitWs (s : String) : List String :=
  (splitCharsAux (fun c => c.isWhitespace) s.data []).map (fun cs => String.mk cs)

/-- The set of word tokens of length `> 3` of the lower-cased string:
`new Set(str.toLowerCase().split(/\s+/).filter(w => w.length > 3))`
(src/lib/utils.ts, inside `calculateSimilarity`). -/
def tokenSet (s : String) : Finset String :=
  ((splitWs (toLowerStr s)).filter (fun w => w.length > 3)).toFinset

/-- `calculateSimilarity` (src/lib/utils.ts): Jaccard similarity of the
`> 3`-character word-token sets of the two strings. -/
def calculateSimilarity (str1 str2 : String) : ℚ :=
  let words1 := tokenSet str1
  let words2 := tokenSet str2
  if words1.card = 0 ∨ words2.card = 0 then 0
  else ((words1 ∩ words2).card : ℚ) / ((words1 ∪ words2).card : ℚ)

/-- JavaScript string comparison: lexicographic on code units. -/
def charListLt : List Char → List Char → Bool
  | [], [] => false
  | [], _ :: _ => true
  | _ :: _, [] => false
  | a :: as, b :: bs =>
    if a.val < b.val then true
    else if b.val < a.val then false
    else charListLt as bs

/-- `a < b` in the JavaScript string order. -/
def strLtJs (a b : String) : Bool := charListLt a.data b.data

/-- `createPairingKey` (src/lib/utils.ts): `[a, b].sort().join('+')`. -/
def createPairingKey (personaA personaB : String) : String :=
  if strLtJs personaB personaA then personaB ++ "+" ++ personaA
  else personaA ++ "+" ++ personaB

/-- JavaScript `String.prototype.includes` on character lists. -/
def seqContains (needle : List Char) : List Char → Bool
  | [] => needle.isEmpty
  | c :: rest => needle.isPrefixOf (c :: rest) || seqContains needle rest

/-- `hay.includes(needle)` for strings. -/
def strIncludes (hay needle : String) : Bool :=
  seqContains needle.data hay.data

/-- Renders a rational the way JavaScript renders the integers that occur in
the planner's diagnostic messages (non-integers use a `num/den` fallback). -/
def numToString (q : ℚ) : String :=
  if q.den = 1 then toString q.num else toString q.num ++ "/" ++ toString q.den

/-- Insertion-ordered association-list read (`Map.prototype.get`). -/
def alistGet {κ α : Type} [BEq κ] (m : List (κ × α)) (k : κ) : Option α :=
  (m.find? (fun e => e.1 == k)).map (·.2)

/-- Insertion-ordered association-list write (`Map.prototype.set`): an
existing key keeps its position, a new key is appended. -/
def alistSet {κ α : Type} [BEq κ] (m : List (κ × α)) (k : κ) (v : α) :
    List (κ × α) :=
  match m with
  | [] => [(k, v)]
  | (k', v') :: rest =>
    if k' == k then (k, v) :: rest else (k', v') :: alistSet rest k v

/-- `Set.prototype.add` on an insertion-ordered duplicate-free string list. -/
def strSetAdd (s : List String) (k : String) : List String :=
  if s.contains k then s else s ++ [k]

-- ============================================
-- DATA MODEL (src/types/index.ts)
-- ============================================

/-- `postingStyle` union type. -/
inductive PostingStyle
  | asks_questions
  | gives_answers
  | balanced
deriving DecidableEq, Repr

/-- `ThreadType` union type. -/
inductive ThreadType
  | question
  | advice
  | story
  | discussion
deriving DecidableEq, Repr

/-- `timeOfDay` union type. -/
inductive TimeOfDay
  | morning
  | afternoon
  | evening
deriving DecidableEq, Repr

/-- Subreddit sensitivity tier (read by `getSubredditConstraints`). -/
inductive Sensitivity
  | low
  | medium
  | high
deriving DecidableEq, Repr

/-- Post/comment lifecycle status. -/
inductive LifecycleStatus
  | draft
  | approved
  | scheduled
  | posted
  | failed
deriving DecidableEq, Repr

/-- `SubredditRules` (optional per-venue rules record). -/
structure SubredditRules where
  maxPostsPerDay : Option ℚ := none
  requiresFlair : Option Bool := none
  allowsLinks : Option Bool := none
  allowsSelfPromotion : Option Bool := none
  minKarma : Option ℚ := none
  minAccountAge : Option ℚ := none
deriving DecidableEq, Repr

/-- `Persona`. -/
structure Persona where
  id : String
  companyId : String := ""
  username : String
  displayName : Option String := none
  bio : String := ""
  voiceTraits : String := ""
  expertise : List String := []
  postingStyle : PostingStyle
deriving DecidableEq, Repr

/-- `Subreddit` (the `sensitivity` field is read by
`getSubredditConstraints` in src/lib/planner/constraints.ts). -/
structure Subreddit where
  id : String
  companyId : String := ""
  name : String
  description : Option String := none
  rules : Option SubredditRules := none
  sensitivity : Option Sensitivity := none
deriving DecidableEq, Repr

/-- `Keyword`. -/
structure Keyword where
  id : String
  companyId : String := ""
  keyword : String
  category : Option String := none
  priority : Option ℚ := none
deriving DecidableEq, Repr

/-- `Company` (fields read by the planner pipeline). -/
structure Company where
  id : String
  name : String
  description : String := ""
deriving DecidableEq, Repr

/-- `TimeSlot`: dates are epoch-millisecond timestamps. -/
structure TimeSlot where
  date : ℚ
  dayOfWeek : ℚ
  timeOfDay : TimeOfDay
deriving DecidableEq, Repr

/-- `MatchedSlot extends TimeSlot`. -/
structure MatchedSlot extends TimeSlot where
  subreddit : Subreddit
  keywords : List Keyword
  threadType : ThreadType
deriving DecidableEq, Repr

/-- `AssignedSlot extends MatchedSlot`. -/
structure AssignedSlot extends MatchedSlot where
  opPersona : Persona
  commenterPersonas : List Persona
deriving DecidableEq, Repr

/-- `PlannerConstraints`. -/
structure PlannerConstraints where
  maxPostsPerSubredditPerWeek : ℚ
  minDaysBetweenSubredditPosts : ℚ
  maxPostsPerPersonaPerWeek : ℚ
  maxCommentsPerPersonaPerWeek : ℚ
  minHoursBetweenSamePersonaPosts : ℚ
  maxPersonasPerThread : ℚ
  noRepeatedPairingsPerWeek : Bool
  noBackToBackComments : Bool
  minDelayAfterPostMinutes : ℚ
  maxDelayAfterPostMinutes : ℚ
  commentSpacingMinutes : ℚ × ℚ
  opFollowUpDelayMinutes : ℚ × ℚ
  maxPromoScoreAllowed : ℚ
  minQualityScoreRequired : ℚ
deriving DecidableEq, Repr

-- ============================================
-- DEFAULT PLANNER CONSTRAINTS (src/lib/planner/constraints.ts)
-- ============================================

/-- `DEFAULT_CONSTRAINTS`. -/
def DEFAULT_CONSTRAINTS : PlannerConstraints where
  maxPostsPerSubredditPerWeek := 2
  minDaysBetweenSubredditPosts := 3
  maxPostsPerPersonaPerWeek := 2
  maxCommentsPerPersonaPerWeek := 6
  minHoursBetweenSamePersonaPosts := 24
  maxPersonasPerThread := 3
  noRepeatedPairingsPerWeek := true
  noBackToBackComments := true
  minDelayAfterPostMinutes := 15
  maxDelayAfterPostMinutes := 180
  commentSpacingMinutes := (10, 60)
  opFollowUpDelayMinutes := (30, 180)
  maxPromoScoreAllowed := 6
  minQualityScoreRequired := 6

/-- Per-persona usage tracker (`PersonaUsageTracker` in personaAssigner.ts). -/
structure PersonaUsageTracker where
  postsThisWeek : ℕ
  commentsThisWeek : ℕ
  lastPostDate : Option ℚ := none
  subredditsPostedTo : List String := []
deriving DecidableEq, Repr

/-- Per-subreddit usage tracker used by the matcher. -/
structure SubUsage where
  postsThisWeek : ℕ
  lastPostDate : Option ℚ := none
deriving DecidableEq, Repr

/-- `canPersonaPost` (constraints.ts).  The source returns
`{allowed, reason}`; only `.allowed` is ever read, so the model returns the
boolean.  The source call site projects the usage map onto
`{postsThisWeek, lastPostDate}`, which are exactly the fields read here. -/
def canPersonaPost (personaId : String)
    (usage : List (String × PersonaUsageTracker))
    (constraints : PlannerConstraints) (proposedDate : ℚ) : Bool :=
  match alistGet usage personaId with
  | none => true
  | some personaUsage =>
    if (personaUsage.postsThisWeek : ℚ) ≥ constraints.maxPostsPerPersonaPerWeek then
      false
    else
      match personaUsage.lastPostDate with
      | none => true
      | some last =>
        let hoursSinceLastPost := (proposedDate - last) / (1000 * 60 * 60)
        if hoursSinceLastPost < constraints.minHoursBetweenSamePersonaPosts then
          false
        else
          true

/-- `canPostToSubreddit` (constraints.ts), boolean `.allowed` component. -/
def canPostToSubreddit (subredditId : String)
    (usage : List (String × SubUsage))
    (constraints : PlannerConstraints) (proposedDate : ℚ) : Bool :=
  match alistGet usage subredditId with
  | none => true
  | some subUsage =>
    if (subUsage.postsThisWeek : ℚ) ≥ constraints.maxPostsPerSubredditPerWeek then
      false
    else
      match subUsage.lastPostDate with
      | none => true
      | some last =>
        let daysSinceLastPost := (proposedDate - last) / (1000 * 60 * 60 * 24)
        if daysSinceLastPost < constraints.minDaysBetweenSubredditPosts then
          false
        else
          true

/-- `canPersonasInteract` (constraints.ts), boolean `.allowed` component. -/
def canPersonasInteract (personaA personaB : String)
    (pairingsThisWeek : List String) (constraints : PlannerConstraints) : Bool :=
  if !constraints.noRepeatedPairingsPerWeek then
    true
  else if pairingsThisWeek.contains (createPairingKey personaA personaB) then
    false
  else
    true

/-- Scans for two adjacent equal elements (the back-to-back check loop in
`validateThreadStructure`, which pushes its issue at most once). -/
def hasAdjacentDup : List String → Bool
  | a :: b :: rest => a == b || hasAdjacentDup (b :: rest)
  | _ => false

/-- `validateThreadStructure` (constraints.ts): returns `(valid, issues)`. -/
def validateThreadStructure (opPersonaId : String)
    (commentPersonaIds : List String) (constraints : PlannerConstraints) :
    Bool × List String :=
  let _ := opPersonaId
  let uniqueCommenters := commentPersonaIds.dedup
  let issues₁ :=
    if (uniqueCommenters.length : ℚ) > constraints.maxPersonasPerThread - 1 then
      ["Too many personas in thread (max: " ++
        numToString constraints.maxPersonasPerThread ++ ")"]
    else []
  let issues₂ :=
    if constraints.noBackToBackComments && hasAdjacentDup commentPersonaIds then
      ["Same persona cannot comment back-to-back"]
    else []
  let issues := issues₁ ++ issues₂
  (issues.isEmpty, issues)

/-- `generateCommentDelay` (constraints.ts).  Consumes one random value;
returns the delay in minutes and the advanced random-stream index. -/
def generateCommentDelay (index : ℕ) (isOPFollowUp : Bool)
    (constraints : PlannerConstraints) (r : Nat → ℚ) (i : Nat) : ℚ × Nat :=
  if isOPFollowUp then
    let lo := constraints.opFollowUpDelayMinutes.1
    let hi := constraints.opFollowUpDelayMinutes.2
    (lo + jsFloor (r i * (hi - lo)), i + 1)
  else if index = 0 then
    let range := constraints.maxDelayAfterPostMinutes - constraints.minDelayAfterPostMinutes
    (constraints.minDelayAfterPostMinutes + jsFloor (r i * range), i + 1)
  else
    let lo := constraints.commentSpacingMinutes.1
    let hi := constraints.commentSpacingMinutes.2
    (lo + jsFloor (r i * (hi - lo)), i + 1)

/-- `SUBREDDIT_PRESETS` (constraints.ts), applied as a field override on a
base constraint record (`{...base, ...preset}`). -/
def applyPreset (name : String) (c : PlannerConstraints) : PlannerConstraints :=
  if name == "r/AskReddit" then
    { c with maxPostsPerSubredditPerWeek := 3, minDaysBetweenSubredditPosts := 2 }
  else if name == "r/consulting" then
    { c with maxPostsPerSubredditPerWeek := 1, minDaysBetweenSubredditPosts := 7,
             maxPromoScoreAllowed := 4 }
  else if name == "r/startups" then
    { c with maxPostsPerSubredditPerWeek := 2, maxPromoScoreAllowed := 5 }
  else c

/-- `getSubredditConstraints` (constraints.ts):
`{...baseConstraints, ...preset, ...sensitivityAdjustments}` where the
sensitivity adjustments are computed from `baseConstraints` and override the
preset fields. -/
def getSubredditConstraints (subreddit : Subreddit)
    (baseConstraints : PlannerConstraints) : PlannerConstraints :=
  let afterPreset := applyPreset subreddit.name baseConstraints
  match subreddit.sensitivity.getD Sensitivity.medium with
  | Sensitivity.high =>
    { afterPreset with
        maxPostsPerSubredditPerWeek :=
          max 1 (baseConstraints.maxPostsPerSubredditPerWeek - 1),
        minDaysBetweenSubredditPosts :=
          baseConstraints.minDaysBetweenSubredditPosts + 2,
        maxPromoScoreAllowed := max 2 (baseConstraints.maxPromoScoreAllowed - 1) }
  | Sensitivity.low =>
    { afterPreset with
        maxPostsPerSubredditPerWeek :=
          baseConstraints.maxPostsPerSubredditPerWeek + 1,
        minDaysBetweenSubredditPosts :=
          max 1 (baseConstraints.minDaysBetweenSubredditPosts - 1) }
  | Sensitivity.medium => afterPreset

-- ============================================
-- STABLE SORT (JavaScript `Array.prototype.sort` with a numeric comparator)
-- ============================================

/-- Inserts a scored element after every element of equal or higher score
(stable insertion for a descending sort). -/
def insertScoredDesc {α : Type} (x : α × ℚ) : List (α × ℚ) → List (α × ℚ)
  | [] => [x]
  | y :: ys => if x.2 > y.2 then x :: y :: ys else y :: insertScoredDesc x ys

/-- Worker for `sortScoredDesc`: left fold of stable insertions. -/
def sortScoredDescAux {α : Type} (acc : List (α × ℚ)) :
    List (α × ℚ) → List (α × ℚ)
  | [] => acc
  | x :: xs => sortScoredDescAux (insertScoredDesc x acc) xs

/-- `scored.sort((a, b) => b.score - a.score)`: stable sort by descending
score (ties keep their original order, as in the ECMAScript sort). -/
def sortScoredDesc {α : Type} (l : List (α × ℚ)) : List (α × ℚ) :=
  sortScoredDescAux [] l

-- ============================================
-- PERSONA ASSIGNER (src/lib/planner/personaAssigner.ts)
-- ============================================

/-- `isPersonaFitForThreadType`: a `gives_answers` persona authors a
`question` thread only when `Math.random() > 0.7`; every other combination
passes.  Returns the advanced random index. -/
def isPersonaFitForThreadType (persona : Persona) (threadType : ThreadType)
    (r : Nat → ℚ) (i : Nat) : Bool × Nat :=
  if persona.postingStyle = PostingStyle.gives_answers ∧
      threadType = ThreadType.question then
    (decide (r i > 0.7), i + 1)
  else
    (true, i)

/-- `getThreadTypeFitScore`: the fixed style × thread-type fit matrix. -/
def getThreadTypeFitScore (persona : Persona) (threadType : ThreadType) : ℚ :=
  match persona.postingStyle, threadType with
  | PostingStyle.asks_questions, ThreadType.question => 1
  | PostingStyle.asks_questions, ThreadType.advice => 0.8
  | PostingStyle.asks_questions, ThreadType.story => 0.5
  | PostingStyle.asks_questions, ThreadType.discussion => 0.7
  | PostingStyle.gives_answers, ThreadType.question => 0.3
  | PostingStyle.gives_answers, ThreadType.advice => 0.7
  | PostingStyle.gives_answers, ThreadType.story => 0.9
  | PostingStyle.gives_answers, ThreadType.discussion => 0.8
  | PostingStyle.balanced, _ => 0.7

/-- The eligibility filter of `selectOP`: `canPersonaPost` (pure) is checked
first, then the thread-type fit gate, which may consume a random value. -/
def filterEligibleOPs (slot : MatchedSlot)
    (usage : List (String × PersonaUsageTracker))
    (constraints : PlannerConstraints) (r : Nat → ℚ) :
    List Persona → Nat → List Persona × Nat
  | [], i => ([], i)
  | p :: ps, i =>
    if canPersonaPost p.id usage constraints slot.date then
      let fit := isPersonaFitForThreadType p slot.threadType r i
      let rest := filterEligibleOPs slot usage constraints r ps fit.2
      (if fit.1 then p :: rest.1 else rest.1, rest.2)
    else
      filterEligibleOPs slot usage constraints r ps i

/-- The scoring map of `selectOP`:
`-2 × postsThisWeek + fit score + Math.random()` per eligible persona.
The source reads the tracker with a non-null assertion; the `default`
branch is unreachable for personas initialised by `assignPersonas`. -/
def scoreOPs (slot : MatchedSlot) (usage : List (String × PersonaUsageTracker))
    (r : Nat → ℚ) : List Persona → Nat → List (Persona × ℚ) × Nat
  | [], i => ([], i)
  | p :: ps, i =>
    let tracker := (alistGet usage p.id).getD ⟨0, 0, none, []⟩
    let score := -(tracker.postsThisWeek : ℚ) * 2 +
      getThreadTypeFitScore p slot.threadType + r i
    let rest := scoreOPs slot usage r ps (i + 1)
    ((p, score) :: rest.1, rest.2)

/-- `selectOP` (personaAssigner.ts): filter, score, stable-sort descending,
take the head. -/
def selectOP (slot : MatchedSlot) (personas : List Persona)
    (usage : List (String × PersonaUsageTracker))
    (constraints : PlannerConstraints) (r : Nat → ℚ) (i : Nat) :
    Option Persona × Nat :=
  let eligible := filterEligibleOPs slot usage constraints r personas i
  if eligible.1.isEmpty then
    (none, eligible.2)
  else
    let scored := scoreOPs slot usage r eligible.1 eligible.2
    ((sortScoredDesc scored.1).head?.map (·.1), scored.2)

/-- `calculateExpertiseOverlap`: Jaccard overlap of lower-cased expertise
tags, `0` when either list is empty. -/
def calculateExpertiseOverlap (a b : List String) : ℚ :=
  if a.isEmpty || b.isEmpty then 0
  else
    let setA := (a.map toLowerStr).toFinset
    let setB := (b.map toLowerStr).toFinset
    ((setA ∩ setB).card : ℚ) / ((setA ∪ setB).card : ℚ)

/-- `getComplementScore` (personaAssigner.ts). -/
def getComplementScore (op commenter : Persona) : ℚ :=
  if op.postingStyle = PostingStyle.asks_questions ∧
      commenter.postingStyle = PostingStyle.gives_answers then 1
  else if op.postingStyle = PostingStyle.gives_answers ∧
      commenter.postingStyle = PostingStyle.gives_answers then 0.7
  else if calculateExpertiseOverlap op.expertise commenter.expertise < 0.5 then 0.8
  else 0.5

/-- The strict commenter eligibility filter of `selectCommenters`: not the
OP, below the weekly comment cap, and allowed to interact with the OP. -/
def strictEligibleCommenters (opPersona : Persona) (personas : List Persona)
    (usage : List (String × PersonaUsageTracker))
    (pairingsThisWeek : List String) (constraints : PlannerConstraints) :
    List Persona :=
  personas.filter (fun persona =>
    if persona.id == opPersona.id then false
    else if (match alistGet usage persona.id with
             | some tracker =>
               decide ((tracker.commentsThisWeek : ℚ) ≥
                 constraints.maxCommentsPerPersonaPerWeek)
             | none => false) then false
    else canPersonasInteract opPersona.id persona.id pairingsThisWeek constraints)

/-- The relaxed fallback filter of `selectCommenters`: the pairing
constraint is dropped, the OP exclusion and comment cap are kept. -/
def relaxedEligibleCommenters (opPersona : Persona) (personas : List Persona)
    (usage : List (String × PersonaUsageTracker))
    (constraints : PlannerConstraints) : List Persona :=
  personas.filter (fun persona =>
    if persona.id == opPersona.id then false
    else if (match alistGet usage persona.id with
             | some tracker =>
               decide ((tracker.commentsThisWeek : ℚ) ≥
                 constraints.maxCommentsPerPersonaPerWeek)
             | none => false) then false
    else true)

/-- The scoring map of `selectCommenters`:
`-commentsThisWeek + complement score + Math.random()` per candidate. -/
def scoreCommenters (opPersona : Persona)
    (usage : List (String × PersonaUsageTracker)) (r : Nat → ℚ) :
    List Persona → Nat → List (Persona × ℚ) × Nat
  | [], i => ([], i)
  | p :: ps, i =>
    let tracker := (alistGet usage p.id).getD ⟨0, 0, none, []⟩
    let score := -(tracker.commentsThisWeek : ℚ) + getComplementScore opPersona p + r i
    let rest := scoreCommenters opPersona usage r ps (i + 1)
    ((p, score) :: rest.1, rest.2)

/-- The greedy selection loop of `selectCommenters`: walk the sorted
candidates, stop once `count` is reached, and skip a candidate whose id
equals the immediately-previously selected one.  The accumulator holds the
selection in reverse. -/
def greedySelectAux (count : ℚ) (selectedRev : List Persona) :
    List Persona → List Persona
  | [] => selectedRev.reverse
  | p :: ps =>
    if (selectedRev.length : ℚ) ≥ count then selectedRev.reverse
    else
      match selectedRev with
      | last :: _ =>
        if last.id == p.id then greedySelectAux count selectedRev ps
        else greedySelectAux count (p :: selectedRev) ps
      | [] => greedySelectAux count (p :: selectedRev) ps

/-- `selectCommenters` (personaAssigner.ts).  Besides the selected
commenters and advanced random index, the result records whether the strict
eligibility list was empty — the exact condition
(`eligible.length === 0`) under which the source falls back to the relaxed
filter; this flag is instrumentation for stating theorems and is dropped by
`assignPersonas`. -/
def selectCommenters (opPersona : Persona) (personas : List Persona)
    (count : ℚ) (usage : List (String × PersonaUsageTracker))
    (pairingsThisWeek : List String) (constraints : PlannerConstraints)
    (r : Nat → ℚ) (i : Nat) : (List Persona × Bool) × Nat :=
  let eligible :=
    strictEligibleCommenters opPersona personas usage pairingsThisWeek constraints
  let relaxUsed := eligible.isEmpty
  let relaxedEligible :=
    if eligible.isEmpty then
      relaxedEligibleCommenters opPersona personas usage constraints
    else eligible
  if relaxedEligible.isEmpty then (([], relaxUsed), i)
  else
    let scored := scoreCommenters opPersona usage r relaxedEligible i
    let sorted := sortScoredDesc scored.1
    ((greedySelectAux count [] (sorted.map (·.1)), relaxUsed), scored.2)

/-- `updateUsage` (personaAssigner.ts): bump the OP's post counter, record
the slot date and venue, and bump each commenter's comment counter.  The
source reads the trackers with non-null assertions; a missing key leaves
the map unchanged (unreachable for personas initialised by
`assignPersonas`). -/
def updateUsage (usage : List (String × PersonaUsageTracker))
    (opPersona : Persona) (commenters : List Persona) (slot : MatchedSlot) :
    List (String × PersonaUsageTracker) :=
  let usage₁ :=
    match alistGet usage opPersona.id with
    | some t =>
      alistSet usage opPersona.id
        { t with
            postsThisWeek := t.postsThisWeek + 1
            lastPostDate := some slot.date
            subredditsPostedTo := t.subredditsPostedTo ++ [slot.subreddit.id] }
    | none => usage
  commenters.foldl
    (fun u c =>
      match alistGet u c.id with
      | some t => alistSet u c.id { t with commentsThisWeek := t.commentsThisWeek + 1 }
      | none => u)
    usage₁

/-- The commenter-to-commenter half of `updatePairings`
(the `i < j` double loop). -/
def addCommenterPairs (pairings : List String) : List Persona → List String
  | [] => pairings
  | c :: rest =>
    addCommenterPairs
      (rest.foldl (fun s c2 => strSetAdd s (createPairingKey c.id c2.id)) pairings)
      rest

/-- `updatePairings` (personaAssigner.ts): record every OP↔commenter key
and every commenter↔commenter key. -/
def updatePairings (pairings : List String) (opPersona : Persona)
    (commenters : List Persona) : List String :=
  let p₁ := commenters.foldl
    (fun s c => strSetAdd s (createPairingKey opPersona.id c.id)) pairings
  addCommenterPairs p₁ commenters

/-- The loop state of `assignPersonas`.  `relaxedEver` is instrumentation:
it records whether any processed slot used the relaxed commenter filter. -/
structure AssignState where
  assignedSlots : List AssignedSlot
  usage : List (String × PersonaUsageTracker)
  pairingsThisWeek : List String
  warnings : List String
  rngIdx : Nat
  relaxedEver : Bool
deriving Repr

/-- One iteration of the `for (const slot of slots)` loop of
`assignPersonas`. -/
def assignStep (personas : List Persona) (constraints : PlannerConstraints)
    (r : Nat → ℚ) (st : AssignState) (slot : MatchedSlot) : AssignState :=
  match selectOP slot personas st.usage constraints r st.rngIdx with
  | (none, i₁) =>
    { st with
        warnings := st.warnings ++
          ["Could not find eligible OP for slot at " ++ numToString slot.date]
        rngIdx := i₁ }
  | (some opPersona, i₁) =>
    let maxCommenters :=
      min (constraints.maxPersonasPerThread - 1) (min ((personas.length : ℚ) - 1) 3)
    let commenterCount := 1 + jsFloor (r i₁ * maxCommenters)
    let sel := selectCommenters opPersona personas commenterCount st.usage
      st.pairingsThisWeek constraints r (i₁ + 1)
    let commenterPersonas := sel.1.1
    let validation :=
      validateThreadStructure opPersona.id (commenterPersonas.map (·.id)) constraints
    { assignedSlots := st.assignedSlots ++
        [{ toMatchedSlot := slot, opPersona := opPersona,
           commenterPersonas := commenterPersonas }]
      usage := updateUsage st.usage opPersona commenterPersonas slot
      pairingsThisWeek := updatePairings st.pairingsThisWeek opPersona commenterPersonas
      warnings := if validation.1 then st.warnings else st.warnings ++ validation.2
      rngIdx := sel.2
      relaxedEver := st.relaxedEver || sel.1.2 }

/-- The usage-map initialisation loop of `assignPersonas`. -/
def initUsage (personas : List Persona) : List (String × PersonaUsageTracker) :=
  personas.foldl (fun u p => alistSet u p.id ⟨0, 0, none, []⟩) []

/-- The final loop state of `assignPersonas` on a slot list, starting from
the given random-stream index. -/
def assignFinalState (personas : List Persona) (slots : List MatchedSlot)
    (constraints : PlannerConstraints) (r : Nat → ℚ) (i₀ : Nat) : AssignState :=
  slots.foldl (assignStep personas constraints r)
    { assignedSlots := []
      usage := initUsage personas
      pairingsThisWeek := []
      warnings := []
      rngIdx := i₀
      relaxedEver := false }

/-- `PersonaAssignerResult` (metadata flattened). -/
structure PersonaAssignerResult where
  slots : List AssignedSlot
  personaDistribution : List (String × (ℕ × ℕ))
  pairingsUsed : List String
  warnings : List String
deriving Repr

/-- The distribution summary built at the end of `assignPersonas`
(username → (posts, comments), in usage-map order). -/
def buildDistribution (usage : List (String × PersonaUsageTracker))
    (personas : List Persona) : List (String × (ℕ × ℕ)) :=
  usage.foldl
    (fun d e =>
      match personas.find? (fun p => p.id == e.1) with
      | some p => alistSet d p.username (e.2.postsThisWeek, e.2.commentsThisWeek)
      | none => d)
    []

/-- `assignPersonas` (personaAssigner.ts).  Throws when fewer than two
personas are supplied; otherwise runs the per-slot assignment loop.
Returns the result together with the advanced random-stream index. -/
def assignPersonas (personas : List Persona) (slots : List MatchedSlot)
    (constraints? : Option PlannerConstraints) (r : Nat → ℚ) (i₀ : Nat) :
    Except String (PersonaAssignerResult × Nat) :=
  if personas.length < 2 then
    Except.error "At least 2 personas are required"
  else
    let effectiveConstraints := constraints?.getD DEFAULT_CONSTRAINTS
    let st := assignFinalState personas slots effectiveConstraints r i₀
    Except.ok
      ({ slots := st.assignedSlots
         personaDistribution := buildDistribution st.usage personas
         pairingsUsed := st.pairingsThisWeek
         warnings := st.warnings }, st.rngIdx)

-- ============================================
-- SUBREDDIT MATCHER (src/lib/planner/subredditMatcher.ts)
-- ============================================

/-- Calendar-history snapshot; the matcher reads only `topicsUsed`. -/
structure CalendarHistory where
  weekNumber : ℚ := 0
  topicsUsed : List String := []
deriving DecidableEq, Repr

/-- Worker for `buildFreshnessPenalties`: week `i` (0-based) contributes a
penalty of `1/(i+1)` to each topic it used. -/
def buildFreshnessPenaltiesAux (penalties : List (String × ℚ)) :
    List CalendarHistory → ℕ → List (String × ℚ)
  | [], _ => penalties
  | week :: rest, i =>
    let weekPenalty : ℚ := 1 / (i + 1)
    let penalties' := week.topicsUsed.foldl
      (fun ps topic => alistSet ps topic ((alistGet ps topic).getD 0 + weekPenalty))
      penalties
    buildFreshnessPenaltiesAux penalties' rest (i + 1)

/-- `buildFreshnessPenalties` (subredditMatcher.ts). -/
def buildFreshnessPenalties (previousWeeks : List CalendarHistory) :
    List (String × ℚ) :=
  buildFreshnessPenaltiesAux [] previousWeeks 0

/-- JavaScript `String.prototype.replace` with a string pattern: replaces
only the first occurrence. -/
def replaceFirstAux (pat rep : List Char) : List Char → List Char
  | [] => []
  | c :: cs =>
    if pat.isPrefixOf (c :: cs) then rep ++ (c :: cs).drop pat.length
    else c :: replaceFirstAux pat rep cs

/-- `s.replace(pat, rep)` for string patterns (first occurrence only). -/
def replaceFirst (s pat rep : String) : String :=
  String.mk (replaceFirstAux pat.data rep.data s.data)

/-- The static category → venue-name-fragment table of `matchCategory`. -/
def categoryMappings : List (String × List String) :=
  [("presentations", ["powerpoint", "slides", "presentations", "canva"]),
   ("productivity", ["productivity", "getdisciplined", "selfimprovement"]),
   ("business", ["startups", "entrepreneur", "smallbusiness", "business"]),
   ("tech", ["technology", "programming", "software", "chatgpt", "claudeai"]),
   ("design", ["design", "canva", "graphic_design"]),
   ("education", ["askacademia", "teachers", "education", "college"])]

/-- `matchCategory` (subredditMatcher.ts). -/
def matchCategory (keyword : Keyword) (subreddit : Subreddit) : Bool :=
  let category := toLowerStr (keyword.category.getD "")
  let subName := toLowerStr subreddit.name
  categoryMappings.any (fun e =>
    (strIncludes category e.1 || strIncludes (toLowerStr keyword.keyword) e.1) &&
      e.2.any (fun s => strIncludes subName s))

/-- `calculateSubredditRelevance` (subredditMatcher.ts). -/
def calculateSubredditRelevance (keyword : Keyword) (subreddit : Subreddit) : ℚ :=
  let kwLower := toLowerStr keyword.keyword
  let subLower := toLowerStr subreddit.name
  let subDesc := toLowerStr (subreddit.description.getD "")
  if strIncludes subLower kwLower ||
      strIncludes kwLower (replaceFirst subLower "r/" "") then 1
  else if subDesc ≠ "" && strIncludes subDesc kwLower then 0.8
  else if matchCategory keyword subreddit then 0.6
  else 0.3

/-- The scoring map of `selectKeywords`: relevance ×3, minus freshness
penalty, minus 2 × this-run usage, plus the configured priority (when
truthy), plus `Math.random() * 0.5`. -/
def scoreKeywords (subreddit : Subreddit) (usage : List (String × ℕ))
    (freshnessPenalties : List (String × ℚ)) (r : Nat → ℚ) :
    List Keyword → Nat → List (Keyword × ℚ) × Nat
  | [], i => ([], i)
  | kw :: kws, i =>
    let relevance := calculateSubredditRelevance kw subreddit
    let freshnessPenalty := (alistGet freshnessPenalties kw.id).getD 0
    let usageCount := (alistGet usage kw.id).getD 0
    let priorityBoost :=
      match kw.priority with
      | some p => if p = 0 then 0 else p
      | none => 0
    let score := relevance * 3 - freshnessPenalty - (usageCount : ℚ) * 2 +
      priorityBoost + r i * 0.5
    let rest := scoreKeywords subreddit usage freshnessPenalties r kws (i + 1)
    ((kw, score) :: rest.1, rest.2)

/-- `selectKeywords` (subredditMatcher.ts): score, stable-sort descending,
take the top `maxKeywords`. -/
def selectKeywords (keywords : List Keyword) (subreddit : Subreddit)
    (usage : List (String × ℕ)) (freshnessPenalties : List (String × ℚ))
    (maxKeywords : ℕ) (r : Nat → ℚ) (i : Nat) : List Keyword × Nat :=
  let scored := scoreKeywords subreddit usage freshnessPenalties r keywords i
  (((sortScoredDesc scored.1).take maxKeywords).map (·.1), scored.2)

/-- The scoring map of `selectSubreddit`:
`-postsThisWeek + Math.random() * 0.5` per eligible subreddit. -/
def scoreSubreddits (usage : List (String × SubUsage)) (r : Nat → ℚ) :
    List Subreddit → Nat → List (Subreddit × ℚ) × Nat
  | [], i => ([], i)
  | sub :: subs, i =>
    let usageScore :=
      match alistGet usage sub.id with
      | some subUsage => (subUsage.postsThisWeek : ℚ)
      | none => 0
    let rest := scoreSubreddits usage r subs (i + 1)
    ((sub, -usageScore + r i * 0.5) :: rest.1, rest.2)

/-- `selectSubreddit` (subredditMatcher.ts): filter by
`canPostToSubreddit`, score, stable-sort descending, take the head. -/
def selectSubreddit (subreddits : List Subreddit)
    (usage : List (String × SubUsage)) (proposedDate : ℚ)
    (constraints : PlannerConstraints) (r : Nat → ℚ) (i : Nat) :
    Option Subreddit × Nat :=
  let eligible := subreddits.filter
    (fun sub => canPostToSubreddit sub.id usage constraints proposedDate)
  if eligible.isEmpty then (none, i)
  else
    let scored := scoreSubreddits usage r eligible i
    ((sortScoredDesc scored.1).head?.map (·.1), scored.2)

/-- `determineThreadType` (subredditMatcher.ts): pure classification of the
joined lower-cased keyword text. -/
def determineThreadType (keywords : List Keyword) : ThreadType :=
  let keywordText :=
    String.intercalate " " (keywords.map (fun k => toLowerStr k.keyword))
  if strIncludes keywordText "best" || strIncludes keywordText "how to" ||
      strIncludes keywordText "what is" || strIncludes keywordText "which" ||
      strIncludes keywordText "alternatives" || strIncludes keywordText "vs" then
    ThreadType.question
  else if strIncludes keywordText "help" || strIncludes keywordText "need" ||
      strIncludes keywordText "recommend" || strIncludes keywordText "tips" then
    ThreadType.advice
  else if strIncludes keywordText "experience" || strIncludes keywordText "tried" ||
      strIncludes keywordText "review" then
    ThreadType.story
  else
    ThreadType.discussion

/-- Loop state of `matchSubreddits`. -/
structure MatchState where
  matchedSlots : List MatchedSlot
  subredditUsage : List (String × SubUsage)
  keywordUsage : List (String × ℕ)
  topicsSkipped : List String
  rngIdx : Nat
deriving Repr

/-- One iteration of the `for (const slot of slots)` loop of
`matchSubreddits`. -/
def matchStep (subreddits : List Subreddit) (keywords : List Keyword)
    (freshnessPenalties : List (String × ℚ)) (constraints : PlannerConstraints)
    (r : Nat → ℚ) (st : MatchState) (slot : TimeSlot) : MatchState :=
  match selectSubreddit subreddits st.subredditUsage slot.date constraints r st.rngIdx with
  | (none, i₁) =>
    { st with
        topicsSkipped := st.topicsSkipped ++
          ["No eligible subreddit for slot at " ++ numToString slot.date]
        rngIdx := i₁ }
  | (some selectedSubreddit, i₁) =>
    let sel := selectKeywords keywords selectedSubreddit st.keywordUsage
      freshnessPenalties 2 r i₁
    let selectedKeywords := sel.1
    let threadType := determineThreadType selectedKeywords
    let currentUsage := (alistGet st.subredditUsage selectedSubreddit.id).getD
      { postsThisWeek := 0 }
    { matchedSlots := st.matchedSlots ++
        [{ toTimeSlot := slot, subreddit := selectedSubreddit,
           keywords := selectedKeywords, threadType := threadType }]
      subredditUsage := alistSet st.subredditUsage selectedSubreddit.id
        { postsThisWeek := currentUsage.postsThisWeek + 1
          lastPostDate := some slot.date }
      keywordUsage := selectedKeywords.foldl
        (fun u kw => alistSet u kw.id ((alistGet u kw.id).getD 0 + 1))
        st.keywordUsage
      topicsSkipped := st.topicsSkipped
      rngIdx := sel.2 }

/-- The final loop state of `matchSubreddits`. -/
def matchFinalState (slots : List TimeSlot) (subreddits : List Subreddit)
    (keywords : List Keyword) (previousWeeks : List CalendarHistory)
    (constraints : PlannerConstraints) (r : Nat → ℚ) (i₀ : Nat) : MatchState :=
  let freshnessPenalties := buildFreshnessPenalties previousWeeks
  slots.foldl (matchStep subreddits keywords freshnessPenalties constraints r)
    { matchedSlots := []
      subredditUsage := []
      keywordUsage := []
      topicsSkipped := []
      rngIdx := i₀ }

/-- `SubredditMatcherResult` (metadata flattened). -/
structure SubredditMatcherResult where
  slots : List MatchedSlot
  subredditDistribution : List (String × ℕ)
  keywordUsage : List (String × ℕ)
  topicsSkipped : List String
deriving Repr

/-- The distribution summary built at the end of `matchSubreddits`
(subreddit name → posts this week, in usage-map order). -/
def buildSubDistribution (usage : List (String × SubUsage))
    (subreddits : List Subreddit) : List (String × ℕ) :=
  usage.foldl
    (fun d e =>
      match subreddits.find? (fun s => s.id == e.1) with
      | some sub => alistSet d sub.name e.2.postsThisWeek
      | none => d)
    []

/-- `matchSubreddits` (subredditMatcher.ts).  Returns the result together
with the advanced random-stream index. -/
def matchSubreddits (slots : List TimeSlot) (subreddits : List Subreddit)
    (keywords : List Keyword) (previousWeeks : List CalendarHistory)
    (constraints? : Option PlannerConstraints) (r : Nat → ℚ) (i₀ : Nat) :
    SubredditMatcherResult × Nat :=
  let effectiveConstraints := constraints?.getD DEFAULT_CONSTRAINTS
  let st := matchFinalState slots subreddits keywords previousWeeks
    effectiveConstraints r i₀
  ({ slots := st.matchedSlots
     subredditDistribution := buildSubDistribution st.subredditUsage subreddits
     keywordUsage := st.keywordUsage
     topicsSkipped := st.topicsSkipped }, st.rngIdx)

-- ============================================
-- SLOT ALLOCATOR (src/lib/planner/slotAllocator.ts)
-- ============================================

/-- Number of iterations of a JavaScript `for (let i = 0; i < count; i++)`
loop when `count` is an arbitrary number. -/
def jsLoopCount (count : ℚ) : ℕ := (⌈count⌉).toNat

/-- Swaps two positions of a list (identity when out of range). -/
def listSwap {α : Type} (l : List α) (i j : ℕ) : List α :=
  match l.get? i, l.get? j with
  | some a, some b => (l.set i b).set j a
  | _, _ => l

/-- The Fisher–Yates loop of `shuffleArray` (src/lib/utils.ts): iterates
`i` from `len - 1` down to `1`, swapping with `j = ⌊random · (i+1)⌋`. -/
def shuffleLoop {α : Type} (r : Nat → ℚ) : List α → ℕ → Nat → List α × Nat
  | l, 0, ri => (l, ri)
  | l, Nat.succ k, ri =>
    let i := Nat.succ k
    let j := (⌊r ri * ((i : ℚ) + 1)⌋).toNat
    shuffleLoop r (listSwap l i j) k (ri + 1)

/-- `shuffleArray` (src/lib/utils.ts). -/
def shuffleArray {α : Type} (l : List α) (r : Nat → ℚ) (ri : Nat) :
    List α × Nat :=
  shuffleLoop r l (l.length - 1) ri

/-- `distributeEvenly` (src/lib/utils.ts). -/
def distributeEvenly (available : List ℚ) (needed : ℚ) : List ℚ :=
  if needed ≥ (available.length : ℚ) then available
  else
    let step : ℚ := (available.length : ℚ) / needed
    (List.range (jsLoopCount needed)).map (fun i =>
      let index := (⌊(i : ℚ) * step⌋).toNat
      available.getD (min index (available.length - 1)) 0)

/-- `selectDaysForPosts` (slotAllocator.ts). -/
def selectDaysForPosts (availableDays : List ℚ) (needed : ℚ) : List ℚ :=
  if needed ≥ (availableDays.length : ℚ) then
    (List.range (jsLoopCount needed)).map (fun i =>
      availableDays.getD (i % availableDays.length) 0)
  else
    distributeEvenly availableDays needed

/-- `selectTimeSlot` (slotAllocator.ts): prefer the least-used dayparts,
with a random bias toward afternoon.  The `index` parameter of the source
is unused by its body.  Short-circuit evaluation means the afternoon coin
is only tossed when afternoon is among the least-used dayparts. -/
def selectTimeSlot (alreadyUsed : List TimeOfDay) (r : Nat → ℚ) (ri : Nat) :
    TimeOfDay × Nat :=
  let countOf := fun t => (alreadyUsed.filter (fun u => u = t)).length
  let usageM := countOf TimeOfDay.morning
  let usageA := countOf TimeOfDay.afternoon
  let usageE := countOf TimeOfDay.evening
  let minUsage := min usageM (min usageA usageE)
  let leastUsed := [TimeOfDay.morning, TimeOfDay.afternoon, TimeOfDay.evening].filter
    (fun t => countOf t = minUsage)
  if leastUsed.contains TimeOfDay.afternoon then
    if r ri > 0.3 then (TimeOfDay.afternoon, ri + 1)
    else
      ((leastUsed.getD ((⌊r (ri + 1) * (leastUsed.length : ℚ)⌋).toNat)
          TimeOfDay.afternoon), ri + 2)
  else
    ((leastUsed.getD ((⌊r ri * (leastUsed.length : ℚ)⌋).toNat)
        TimeOfDay.afternoon), ri + 1)

/-- `addDays` on the epoch-millisecond model (UTC, no DST). -/
def jsAddDays (d : ℚ) (n : ℚ) : ℚ := d + n * 86400000

/-- `setHours` on the epoch-millisecond model (UTC): replaces the hour
field, keeping minutes/seconds/milliseconds. -/
def jsSetHours (d : ℚ) (h : ℚ) : ℚ :=
  d - ((⌊d / 3600000⌋ % 24 : ℤ) : ℚ) * 3600000 + h * 3600000

/-- `setMinutes` on the epoch-millisecond model (UTC). -/
def jsSetMinutes (d : ℚ) (m : ℚ) : ℚ :=
  d - ((⌊d / 60000⌋ % 60 : ℤ) : ℚ) * 60000 + m * 60000

/-- `setTimeForSlot` (src/lib/utils.ts): random hour within the daypart
window and random minute. -/
def setTimeForSlot (date : ℚ) (slot : TimeOfDay) (r : Nat → ℚ) (ri : Nat) :
    ℚ × Nat :=
  let baseHour : ℚ :=
    match slot with
    | TimeOfDay.morning => 8
    | TimeOfDay.afternoon => 12
    | TimeOfDay.evening => 17
  let variance : ℚ :=
    match slot with
    | TimeOfDay.morning => 3
    | TimeOfDay.afternoon => 4
    | TimeOfDay.evening => 4
  let hour := baseHour + jsFloor (r ri * variance)
  let minute := jsFloor (r (ri + 1) * 60)
  (jsSetMinutes (jsSetHours date hour) minute, ri + 2)

/-- Stable insertion for an ascending sort by a rational key. -/
def insertAscBy {α : Type} (key : α → ℚ) (x : α) : List α → List α
  | [] => [x]
  | y :: ys => if key x < key y then x :: y :: ys else y :: insertAscBy key x ys

/-- Worker for `sortAscBy`. -/
def sortAscByAux {α : Type} (key : α → ℚ) (acc : List α) : List α → List α
  | [] => acc
  | x :: xs => sortAscByAux key (insertAscBy key x acc) xs

/-- `arr.sort((a, b) => key(a) - key(b))`: stable ascending sort. -/
def sortAscBy {α : Type} (key : α → ℚ) (l : List α) : List α :=
  sortAscByAux key [] l

/-- The per-post loop of `allocateSlots`: build each slot's concrete date
and daypart, threading the dayparts already used and the random index. -/
def allocateLoop (weekStart : ℚ) (r : Nat → ℚ) :
    List ℚ → List TimeSlot → List TimeOfDay → Nat →
    (List TimeSlot × List TimeOfDay × Nat)
  | [], slots, timesUsed, ri => (slots, timesUsed, ri)
  | dayOffset :: rest, slots, timesUsed, ri =>
    let date := jsAddDays weekStart dayOffset
    let pick := selectTimeSlot timesUsed r ri
    let scheduled := setTimeForSlot date pick.1 r pick.2
    allocateLoop weekStart r rest
      (slots ++ [{ date := scheduled.1, dayOfWeek := dayOffset, timeOfDay := pick.1 }])
      (timesUsed ++ [pick.1]) scheduled.2

/-- `SlotAllocationResult` (metadata flattened; `timesUsed` keeps the
daypart values whose string names the source records). -/
structure SlotAllocationResult where
  slots : List TimeSlot
  daysUsed : List ℚ
  timesUsed : List TimeOfDay
deriving Repr

/-- `allocateSlots` (slotAllocator.ts).  The pipeline always calls it with
the default `preferWeekdays = true`; the `false` branch shuffles the full
week. -/
def allocateSlots (count : ℚ) (weekStart : ℚ) (preferWeekdays : Bool)
    (r : Nat → ℚ) (i₀ : Nat) : SlotAllocationResult × Nat :=
  let avail :=
    if preferWeekdays then ([1, 2, 3, 4, 5, 0, 6], i₀)
    else shuffleArray [0, 1, 2, 3, 4, 5, 6] r i₀
  let daysToUse := selectDaysForPosts avail.1 count
  let res := allocateLoop weekStart r daysToUse [] [] avail.2
  let sorted := sortAscBy (fun s => s.date) res.1
  ({ slots := sorted, daysUsed := daysToUse, timesUsed := res.2.1 }, res.2.2)

-- ============================================
-- PLANNER ORCHESTRATOR (src/lib/planner/index.ts)
-- ============================================

/-- Risk-tolerance enum. -/
inductive RiskTolerance
  | low
  | medium
  | high
deriving DecidableEq, Repr

/-- `GenerationPreferences`. -/
structure GenerationPreferences where
  allowProductMention : Option Bool := none
  productMentionCount : Option ℚ := none
  antiPromoChecks : Option Bool := none
  bannedPhrases : Option (List String) := none
  postGuidelines : Option String := none
  commentGuidelines : Option String := none
  campaignBrief : Option String := none
  minCommentLength : Option ℚ := none
  maxCommentLength : Option ℚ := none
  minPostLength : Option ℚ := none
  maxPostLength : Option ℚ := none
  autoRepair : Option Bool := none
  requireDisagreement : Option Bool := none
  repairPasses : Option ℚ := none
deriving DecidableEq, Repr

/-- `PlannerInput` (fields read by the pipeline).  An invalid week-start
date (`isNaN(getTime())`) is modelled as `none`. -/
structure PlannerInput where
  company : Company
  personas : List Persona
  subreddits : List Subreddit
  keywords : List Keyword
  postsPerWeek : ℚ
  weekStartDate : Option ℚ
  weekNumber : Option ℚ := none
  previousWeeks : List CalendarHistory := []
  preferences : Option GenerationPreferences := none
  constraints : Option PlannerConstraints := none
  riskTolerance : Option RiskTolerance := none
  weeklyGoals : List String := []

/-- `applyRiskTolerance` (src/lib/planner/index.ts). -/
def applyRiskTolerance (constraints : PlannerConstraints)
    (riskTolerance : Option RiskTolerance) : PlannerConstraints :=
  match riskTolerance with
  | none | some RiskTolerance.medium => constraints
  | some RiskTolerance.low =>
    { constraints with
        maxPostsPerSubredditPerWeek :=
          max 1 (constraints.maxPostsPerSubredditPerWeek - 1)
        maxPromoScoreAllowed := max 2 (constraints.maxPromoScoreAllowed - 1)
        maxCommentsPerPersonaPerWeek :=
          max 1 (constraints.maxCommentsPerPersonaPerWeek - 1) }
  | some RiskTolerance.high =>
    { constraints with
        maxPostsPerSubredditPerWeek := constraints.maxPostsPerSubredditPerWeek + 1
        maxPromoScoreAllowed := constraints.maxPromoScoreAllowed + 1
        maxCommentsPerPersonaPerWeek := constraints.maxCommentsPerPersonaPerWeek + 1 }

/-- `validateInput` (src/lib/planner/index.ts): the collected error list,
in source order.  Empty strings model falsy required fields. -/
def validateInputErrors (input : PlannerInput)
    (constraints : PlannerConstraints) : List String :=
  (if input.company.id = "" ∨ input.company.name = "" then
    ["Company must have id and name"]
   else []) ++
  (if input.personas.length < 2 then ["At least 2 personas are required"] else []) ++
  (input.personas.filterMap (fun persona =>
    if persona.id = "" ∨ persona.username = "" ∨ persona.bio = "" then
      some ("Persona " ++ (if persona.username = "" then "unknown" else persona.username) ++
        " missing required fields")
    else none)) ++
  (if input.subreddits.length = 0 then ["At least 1 subreddit is required"] else []) ++
  (if input.keywords.length = 0 then ["At least 1 keyword is required"] else []) ++
  (if input.postsPerWeek < 1 then ["Posts per week must be at least 1"] else []) ++
  (if input.postsPerWeek >
      (input.subreddits.length : ℚ) * constraints.maxPostsPerSubredditPerWeek then
    ["Cannot schedule " ++ numToString input.postsPerWeek ++ " posts with only " ++
      numToString (input.subreddits.length : ℚ) ++ " subreddits (max " ++
      numToString constraints.maxPostsPerSubredditPerWeek ++ " per subreddit)"]
   else []) ++
  (match input.weekStartDate with
   | none => ["Invalid week start date"]
   | some _ => [])

/-- The aggregated multi-line validation error thrown by `validateInput`. -/
def validationErrorMessage (errors : List String) : String :=
  "Invalid planner input:\n" ++
    String.intercalate "\n" (errors.map (fun e => "  - " ++ e))

/-- Output of the planning prefix of `generateWeeklyCalendar`
(phases 1–3). -/
structure PlanningOutput where
  slotAllocation : SlotAllocationResult
  subredditMatching : SubredditMatcherResult
  personaAssignment : PersonaAssignerResult
  rngIdx : Nat

/-- The validation gate and pure planning phases (1–3) of
`generateWeeklyCalendar` (src/lib/planner/index.ts): resolve constraints
via `applyRiskTolerance`, throw the aggregated validation error before any
phase runs, then run slot allocation, subreddit matching, and persona
assignment in order.  Phases 4–5 invoke the external text backend and are
embedded separately (`generateThreads`, `checkQuality`); the week-number
computation feeds only those phases and the response envelope. -/
def generateWeeklyCalendarPlanning (input : PlannerInput) (r : Nat → ℚ)
    (i₀ : Nat) : Except String PlanningOutput :=
  let baseConstraints := input.constraints.getD DEFAULT_CONSTRAINTS
  let constraints := applyRiskTolerance baseConstraints input.riskTolerance
  let errors := validateInputErrors input constraints
  if errors.isEmpty then
    let weekStart := input.weekStartDate.getD 0
    let slotResult := allocateSlots input.postsPerWeek weekStart true r i₀
    let matchResult := matchSubreddits slotResult.1.slots input.subreddits
      input.keywords input.previousWeeks (some constraints) r slotResult.2
    match assignPersonas input.personas matchResult.1.slots (some constraints)
      r matchResult.2 with
    | Except.error e => Except.error e
    | Except.ok assignResult =>
      Except.ok
        { slotAllocation := slotResult.1
          subredditMatching := matchResult.1
          personaAssignment := assignResult.1
          rngIdx := assignResult.2 }
  else
    Except.error (validationErrorMessage errors)

-- ============================================
-- POSTS, COMMENTS, THREADS (src/types/index.ts)
-- ============================================

/-- `Post`.  The optional quality-annotation fields written by the
orchestrator's final scoring loop are not part of any checked claim and are
omitted. -/
structure Post where
  id : String
  companyId : String
  weekNumber : ℚ
  subredditId : String
  subredditName : String
  personaId : String
  personaUsername : String
  title : String
  body : String
  scheduledAt : ℚ
  keywordIds : List String
  threadType : ThreadType
  status : LifecycleStatus
deriving DecidableEq, Repr

/-- `Comment`. -/
structure Comment where
  id : String
  postId : String
  parentCommentId : Option String
  personaId : String
  personaUsername : String
  content : String
  scheduledAt : ℚ
  delayMinutes : ℚ
  status : LifecycleStatus
deriving DecidableEq, Repr

/-- `Thread`: one post, its ordered comments, and the slot that produced
them. -/
structure Thread where
  post : Post
  comments : List Comment
  slot : AssignedSlot
deriving DecidableEq, Repr

-- ============================================
-- QUALITY CHECKER (src/lib/planner/qualityChecker.ts)
-- ============================================

/-- `IssueSeverity`. -/
inductive IssueSeverity
  | low
  | medium
  | high
deriving DecidableEq, Repr

/-- `IssueType`. -/
inductive IssueType
  | overposting
  | duplication
  | persona_collision
  | timing_issue
  | promo_sensitivity
  | voice_inconsistency
deriving DecidableEq, Repr

/-- `QualityIssue`. -/
structure QualityIssue where
  type : IssueType
  severity : IssueSeverity
  message : String
  affectedPostIds : Option (List String) := none
deriving DecidableEq, Repr

/-- `QualityReport`. -/
structure QualityReport where
  overallScore : ℚ
  issues : List QualityIssue
  warnings : List String
  suggestions : List String
  issuesByPostId : List (String × List QualityIssue)
  warningsByPostId : List (String × List String)
deriving DecidableEq, Repr

/-- `truncate` (qualityChecker.ts). -/
def truncateQ (text : String) (maxLength : ℕ) : String :=
  if text.length ≤ maxLength then text
  else String.mk (text.data.take (maxLength - 3)) ++ "..."

/-- The per-subreddit post tally of `checkOverposting`
(insertion-ordered record of counts and post ids). -/
def overpostCounts (threads : List Thread) : List (String × (ℕ × List String)) :=
  threads.foldl
    (fun m t =>
      let e := (alistGet m t.post.subredditName).getD (0, [])
      alistSet m t.post.subredditName (e.1 + 1, e.2 ++ [t.post.id]))
    []

/-- `checkOverposting` (qualityChecker.ts): a high-severity issue for every
subreddit whose batch post count exceeds the hard-coded
`DEFAULT_CONSTRAINTS.maxPostsPerSubredditPerWeek`. -/
def checkOverposting (threads : List Thread) : List QualityIssue :=
  (overpostCounts threads).filterMap (fun e =>
    if (e.2.1 : ℚ) > DEFAULT_CONSTRAINTS.maxPostsPerSubredditPerWeek then
      some
        { type := IssueType.overposting
          severity := IssueSeverity.high
          message := e.1 ++ " has " ++ toString e.2.1 ++
            " posts this week (max: " ++
            numToString DEFAULT_CONSTRAINTS.maxPostsPerSubredditPerWeek ++ ")"
          affectedPostIds := some e.2.2 }
    else none)

/-- `checkDuplication` (qualityChecker.ts): pairwise title+body similarity
over the `i < j` double loop. -/
def checkDuplication : List Thread → List QualityIssue
  | [] => []
  | t :: rest =>
    rest.filterMap (fun u =>
      let contentA := t.post.title ++ " " ++ t.post.body
      let contentB := u.post.title ++ " " ++ u.post.body
      let similarity := calculateSimilarity contentA contentB
      if similarity ≥ 0.5 then
        some
          { type := IssueType.duplication
            severity :=
              if similarity > 0.8 then IssueSeverity.high else IssueSeverity.medium
            message := "Posts \x22" ++ truncateQ t.post.title 30 ++ "\x22 and \x22" ++
              truncateQ u.post.title 30 ++ "\x22 are " ++
              numToString (jsRound (similarity * 100)) ++ "% similar"
            affectedPostIds := some [t.post.id, u.post.id] }
      else none) ++ checkDuplication rest

/-- The OP↔commenter pairing tally of `checkPersonaCollisions`. -/
def collisionMap (threads : List Thread) : List (String × (ℕ × List String)) :=
  threads.foldl
    (fun m t =>
      t.comments.foldl
        (fun m c =>
          if c.personaId == t.post.personaId then m
          else
            let key := createPairingKey t.post.personaId c.personaId
            let e := (alistGet m key).getD (0, [])
            alistSet m key
              (e.1 + 1, if e.2.contains t.post.id then e.2 else e.2 ++ [t.post.id]))
        m)
    []

/-- `checkPersonaCollisions` (qualityChecker.ts): a medium issue for every
non-author pairing interacting more than twice across the week. -/
def checkPersonaCollisions (threads : List Thread) : List QualityIssue :=
  (collisionMap threads).filterMap (fun e =>
    if e.2.1 > 2 then
      some
        { type := IssueType.persona_collision
          severity := IssueSeverity.medium
          message := "Personas " ++ replaceFirst e.1 "+" " and " ++ " interact " ++
            toString e.2.1 ++ " times this week (may look coordinated)"
          affectedPostIds := some e.2.2 }
    else none)

/-- `checkTimingIssues` (qualityChecker.ts), per-thread issues. -/
def checkTimingForThread (t : Thread) : List QualityIssue :=
  (match t.comments.head? with
   | some comment =>
     if comment.delayMinutes < 10 then
       [{ type := IssueType.timing_issue
          severity := IssueSeverity.medium
          message := "First comment on \x22" ++ truncateQ t.post.title 30 ++
            "\x22 arrives in " ++ numToString comment.delayMinutes ++
            " minutes (suspiciously fast)"
          affectedPostIds := some [t.post.id] }]
     else []
   | none => []) ++
  (t.comments.drop 1).filterMap (fun comment =>
    if comment.delayMinutes < 5 then
      some
        { type := IssueType.timing_issue
          severity := IssueSeverity.low
          message := "Comments in \x22" ++ truncateQ t.post.title 30 ++
            "\x22 are only " ++ numToString comment.delayMinutes ++ " minutes apart"
          affectedPostIds := some [t.post.id] }
    else none)

/-- `checkTimingIssues` (qualityChecker.ts). -/
def checkTimingIssues (threads : List Thread) : List QualityIssue :=
  (threads.map checkTimingForThread).flatten

/-- The fixed promotional phrase list of `checkPromotionalContent`. -/
def promoKeywords : List String :=
  ["best ever", "game changer", "life changing", "you should definitely",
   "highly recommend", "check it out", "amazing tool", "perfect solution"]

/-- Case-insensitive test for any of the given markers
(regex alternation as substring matching). -/
def containsAnyCI (content : String) (markers : List String) : Bool :=
  markers.any (fun m => strIncludes (toLowerStr content) m)

/-- The per-thread promotional score and flagged-content list of
`checkPromotionalContent`: +4 per content item mentioning the company,
+1 per promotional phrase per content item, +2 when at least two comments
read as uniformly positive, +1 when no comment carries a dissent marker. -/
def promoScoreOfThread (company : Company) (t : Thread) : ℚ × List String :=
  let companyNameLower := toLowerStr company.name
  let allContent := [t.post.title, t.post.body] ++ t.comments.map (fun c => c.content)
  let perContent := allContent.foldl
    (fun acc content =>
      let contentLower := toLowerStr content
      let acc :=
        if strIncludes contentLower companyNameLower then
          (acc.1 + 4, acc.2 ++ ["Direct mention of \x22" ++ company.name ++ "\x22"])
        else acc
      promoKeywords.foldl
        (fun acc keyword =>
          if strIncludes contentLower keyword then
            (acc.1 + 1, acc.2 ++ ["Uses promotional phrase: \x22" ++ keyword ++ "\x22"])
          else acc)
        acc)
    ((0 : ℚ), ([] : List String))
  let positiveCount := (t.comments.filter (fun c =>
    containsAnyCI c.content ["love", "amazing", "great", "perfect", "excellent"])).length
  let withPositive :=
    if positiveCount ≥ 2 then
      (perContent.1 + 2, perContent.2 ++ ["Multiple overly positive comments"])
    else perContent
  let hasDisagreement := t.comments.any (fun c =>
    containsAnyCI c.content ["but", "though", "however", "not sure", "depends", "maybe"])
  if !hasDisagreement && t.comments.length > 1 then
    (withPositive.1 + 1, withPositive.2 ++ ["No disagreement or nuance in comments"])
  else withPositive

/-- `checkPromotionalContent` (qualityChecker.ts): issues, warnings, and
the per-post warning index.  The threshold is the hard-coded
`DEFAULT_CONSTRAINTS.maxPromoScoreAllowed`. -/
def checkPromotionalContent (threads : List Thread) (company : Company) :
    List QualityIssue × List String × List (String × List String) :=
  threads.foldl
    (fun acc t =>
      let ps := promoScoreOfThread company t
      if ps.1 > DEFAULT_CONSTRAINTS.maxPromoScoreAllowed then
        (acc.1 ++
          [{ type := IssueType.promo_sensitivity
             severity :=
               if ps.1 > 8 then IssueSeverity.high else IssueSeverity.medium
             message := "Thread \x22" ++ truncateQ t.post.title 30 ++
               "\x22 has high promotional score (" ++ numToString ps.1 ++ "/10)"
             affectedPostIds := some [t.post.id] }],
         acc.2.1, acc.2.2)
      else if ps.1 > 4 then
        let warning := "Thread \x22" ++ truncateQ t.post.title 30 ++
          "\x22 may seem promotional: " ++ String.intercalate ", " ps.2
        (acc.1, acc.2.1 ++ [warning],
         alistSet acc.2.2 t.post.id
           ((alistGet acc.2.2 t.post.id).getD [] ++ [warning]))
      else acc)
    ([], [], [])

/-- The per-author post tally of `checkPersonaBalance`. -/
def personaPostCounts (threads : List Thread) : List (String × ℕ) :=
  threads.foldl
    (fun m t => alistSet m t.post.personaId ((alistGet m t.post.personaId).getD 0 + 1))
    []

/-- `checkPersonaBalance` (qualityChecker.ts): a low issue for an author
exceeding the configured cap (when truthy) or the per-author average plus
one. -/
def checkPersonaBalance (threads : List Thread)
    (constraints? : Option PlannerConstraints) : List QualityIssue :=
  let counts := personaPostCounts threads
  if counts.isEmpty then []
  else
    let avg : ℚ := ((counts.map (fun e => (e.2 : ℚ))).sum) / (counts.length : ℚ)
    counts.filterMap (fun e =>
      let overLimit : Bool :=
        match constraints? with
        | some c =>
          c.maxPostsPerPersonaPerWeek ≠ 0 ∧ (e.2 : ℚ) > c.maxPostsPerPersonaPerWeek
        | none => false
      if overLimit ∨ (e.2 : ℚ) > avg + 1 then
        some
          { type := IssueType.persona_collision
            severity := IssueSeverity.low
            message := "Persona " ++ e.1 ++ " is overused (" ++ toString e.2 ++
              " posts vs avg " ++ numToString avg ++ ")"
            affectedPostIds :=
              some ((threads.filter (fun t => t.post.personaId == e.1)).map
                (fun t => t.post.id)) }
      else none)

/-- The UTC calendar-day key used to group a subreddit's posts by day
(`toISOString().slice(0, 10)`: equal date strings correspond to equal
floored day indices for the epoch-millisecond model). -/
def dayKey (ms : ℚ) : ℤ := ⌊ms / 86400000⌋

/-- The per-day grouping of one subreddit's threads in
`checkSubredditRules`. -/
def threadsByDay (threadsForSub : List Thread) : List (ℤ × List Thread) :=
  threadsForSub.foldl
    (fun m t =>
      let k := dayKey t.post.scheduledAt
      alistSet m k ((alistGet m k).getD [] ++ [t]))
    []

/-- `checkSubredditRules` (qualityChecker.ts): per-day caps and
self-promotion bans from each subreddit's configured rules. -/
def checkSubredditRules (threads : List Thread) (company : Company)
    (subreddits : List Subreddit) : List QualityIssue :=
  if subreddits.isEmpty then []
  else
    (subreddits.map (fun sub =>
      match sub.rules with
      | none => []
      | some rules =>
        let threadsForSub := threads.filter (fun t => t.post.subredditId == sub.id)
        (match rules.maxPostsPerDay with
         | some maxPerDay =>
           (threadsByDay threadsForSub).filterMap (fun e =>
             if (e.2.length : ℚ) > maxPerDay then
               some
                 { type := IssueType.overposting
                   severity := IssueSeverity.medium
                   message := sub.name ++ " exceeds max posts per day (" ++
                     toString e.2.length ++ "/" ++ numToString maxPerDay ++
                     ") on " ++ toString e.1
                   affectedPostIds := some (e.2.map (fun t => t.post.id)) }
             else none)
         | none => []) ++
        (if rules.allowsSelfPromotion = some false then
          threadsForSub.filterMap (fun t =>
            let content := toLowerStr (t.post.title ++ " " ++ t.post.body ++ " " ++
              String.intercalate " " (t.comments.map (fun c => c.content)))
            if strIncludes content (toLowerStr company.name) then
              some
                { type := IssueType.promo_sensitivity
                  severity := IssueSeverity.medium
                  message := sub.name ++
                    " disallows self-promotion but thread mentions the company"
                  affectedPostIds := some [t.post.id] }
            else none)
         else []))).flatten

/-- The persona → content map of `checkVoiceConsistency`
(insertion-ordered by first appearance). -/
def personaContentMap (threads : List Thread) : List (String × List String) :=
  threads.foldl
    (fun m t =>
      let m := alistSet m t.post.personaId
        ((alistGet m t.post.personaId).getD [] ++ [t.post.title, t.post.body])
      t.comments.foldl
        (fun m c =>
          alistSet m c.personaId ((alistGet m c.personaId).getD [] ++ [c.content]))
        m)
    []

/-- The `i < j` similarity loop of `checkVoiceConsistency`. -/
def voicePairIssues : List (String × List String) → List QualityIssue
  | [] => []
  | e :: rest =>
    rest.filterMap (fun f =>
      let similarity :=
        calculateSimilarity (String.intercalate " " e.2) (String.intercalate " " f.2)
      if similarity > 0.5 then
        some
          { type := IssueType.voice_inconsistency
            severity := IssueSeverity.medium
            message := "Two personas have very similar writing styles (" ++
              numToString (jsRound (similarity * 100)) ++ "% overlap)"
            affectedPostIds := none }
      else none) ++ voicePairIssues rest

/-- `checkVoiceConsistency` (qualityChecker.ts). -/
def checkVoiceConsistency (threads : List Thread) :
    List QualityIssue × List String :=
  let personaContent := personaContentMap threads
  (voicePairIssues personaContent,
   if personaContent.length < 3 then ["Consider using more personas for variety"]
   else [])

/-- `calculateOverallScore` (qualityChecker.ts): start at 10, subtract per
issue severity and per warning, add the ≥3-thread bonus, round to one
decimal and clamp to [0, 10]. -/
def calculateOverallScore (issues : List QualityIssue) (warnings : List String)
    (threadCount : ℕ) : ℚ :=
  let afterIssues := issues.foldl
    (fun score issue =>
      match issue.severity with
      | IssueSeverity.high => score - 2
      | IssueSeverity.medium => score - 1
      | IssueSeverity.low => score - 0.5)
    (10 : ℚ)
  let afterWarnings := afterIssues - (warnings.length : ℚ) * 0.3
  let withBonus := if threadCount ≥ 3 then afterWarnings + 0.5 else afterWarnings
  max 0 (min 10 (jsRound (withBonus * 10) / 10))

/-- `QualityCheckConfig` (qualityChecker.ts). -/
structure QualityCheckConfig where
  threads : List Thread
  company : Company
  subreddits : List Subreddit := []
  constraints : Option PlannerConstraints := none
  allowProductMention : Option Bool := none
deriving Repr

/-- `QualityCheckResult` (qualityChecker.ts). -/
structure QualityCheckResult where
  validatedThreads : List Thread
  report : QualityReport
deriving DecidableEq, Repr

/-- The per-post issue index built at the end of `checkQuality`. -/
def buildIssuesByPostId (issues : List QualityIssue) :
    List (String × List QualityIssue) :=
  issues.foldl
    (fun m issue =>
      (issue.affectedPostIds.getD []).foldl
        (fun m postId => alistSet m postId ((alistGet m postId).getD [] ++ [issue]))
        m)
    []

/-- `checkQuality` (qualityChecker.ts): run every check, aggregate issues,
warnings and suggestions, and derive the overall score.  The promotional
checks run unless `allowProductMention` is truthy. -/
def checkQuality (config : QualityCheckConfig) : QualityCheckResult :=
  let threads := config.threads
  let allowPM := config.allowProductMention.getD false
  let baseIssues :=
    checkOverposting threads ++ checkDuplication threads ++
    checkPersonaCollisions threads ++ checkTimingIssues threads ++
    checkPersonaBalance threads config.constraints ++
    checkSubredditRules threads config.company config.subreddits
  let promoCheck :=
    if !allowPM then checkPromotionalContent threads config.company
    else ([], [], [])
  let issues₁ := baseIssues ++ promoCheck.1
  let warnings := promoCheck.2.1
  let voiceCheck := checkVoiceConsistency threads
  let issues := issues₁ ++ voiceCheck.1
  let overallScore := calculateOverallScore issues warnings threads.length
  let suggestions := voiceCheck.2 ++
    (if overallScore < 7 then
      ["Consider reviewing threads with low scores before approval"]
     else []) ++
    (if threads.length < 3 then
      ["Adding more posts per week could improve visibility"]
     else [])
  { validatedThreads := threads
    report :=
      { overallScore := overallScore
        issues := issues
        warnings := warnings
        suggestions := suggestions
        issuesByPostId := buildIssuesByPostId issues
        warningsByPostId := if allowPM then [] else promoCheck.2.2 } }

/-- The four 0–2.5 sub-scores of `scoreThread` (qualityChecker.ts). -/
structure ThreadScoreBreakdown where
  naturalness : ℚ
  engagement : ℚ
  subtlety : ℚ
  timing : ℚ
deriving DecidableEq, Repr

/-- `scoreThread` (qualityChecker.ts): naturalness, engagement, subtlety
and timing sub-scores summed to a per-thread quality score. -/
def scoreThread (thread : Thread) (company : Company) :
    ℚ × ThreadScoreBreakdown :=
  let postLength := thread.post.body.length
  let naturalness : ℚ :=
    if postLength ≥ 50 ∧ postLength ≤ 500 then 2.5
    else if postLength > 10 then 1.5
    else 0
  let commentCount := thread.comments.length
  let engagement : ℚ :=
    if commentCount ≥ 2 ∧ commentCount ≤ 4 then 2.5
    else if commentCount ≥ 1 then 1.5
    else 0
  let hasDirectMention := strIncludes
    (toLowerStr (thread.post.body ++
      String.intercalate " " (thread.comments.map (fun c => c.content))))
    (toLowerStr company.name)
  let subtlety : ℚ := if !hasDirectMention then 2.5 else 1
  let avgDelay : ℚ :=
    (thread.comments.map (fun c => c.delayMinutes)).sum /
      (max (thread.comments.length : ℚ) 1)
  let timing : ℚ :=
    if avgDelay ≥ 30 ∧ avgDelay ≤ 120 then 2.5
    else if avgDelay ≥ 15 then 1.5
    else 0
  (naturalness + engagement + subtlety + timing,
   { naturalness := naturalness, engagement := engagement,
     subtlety := subtlety, timing := timing })

-- ============================================
-- TEXT BACKEND (src/lib/ai/openai.ts)
-- ============================================

/-- One backend reply, as seen after `generateWithAI`'s JSON parse: either
a typed failure (transport error or unparseable JSON) or a parsed payload
of one of the three structured shapes.  A payload of the wrong shape for a
call site models a parse that succeeded but lacks the expected fields. -/
inductive AIResponse
  | failure (err : String)
  | postContent (title body : String)
  | textContent (text : String)
  | variationContent (variation : String)
deriving DecidableEq, Repr

/-- The generator's external collaborators: the random stream, the UUID
supply, the backend reply stream (one entry per `generateWithAI` call, in
call order), and the module-level mock-mode flag. -/
structure GenEnv where
  rand : Nat → ℚ
  uuid : Nat → String
  backend : Nat → AIResponse
  mockMode : Bool

/-- Stream positions threaded through the generator: `Math.random` calls,
UUIDs drawn, and backend calls made. -/
structure GenCounters where
  rng : Nat
  uid : Nat
  ai : Nat
deriving DecidableEq, Repr

/-- Draws the next `Math.random()` value. -/
def nextRand (env : GenEnv) (c : GenCounters) : ℚ × GenCounters :=
  (env.rand c.rng, { c with rng := c.rng + 1 })

/-- One `generateWithAI` call: consumes the next backend reply. -/
def callAI (env : GenEnv) (c : GenCounters) : AIResponse × GenCounters :=
  (env.backend c.ai, { c with ai := c.ai + 1 })

/-- `generateWithAIMock` always succeeds with the given canned data; its
simulated latency consumes one `Math.random()` value. -/
def mockCallDelay (c : GenCounters) : GenCounters :=
  { c with rng := c.rng + 1 }

/-- The `${result.error || 'invalid response'}` fragment of the generator's
failure messages. -/
def aiErrString : AIResponse → String
  | AIResponse.failure e => if e = "" then "invalid response" else e
  | _ => "invalid response"

/-- `generatePostId` (src/lib/utils.ts): `post_` + first 8 UUID chars. -/
def generatePostId (env : GenEnv) (c : GenCounters) : String × GenCounters :=
  ("post_" ++ String.mk ((env.uuid c.uid).data.take 8), { c with uid := c.uid + 1 })

/-- `generateCommentId` (src/lib/utils.ts). -/
def generateCommentId (env : GenEnv) (c : GenCounters) : String × GenCounters :=
  ("comment_" ++ String.mk ((env.uuid c.uid).data.take 8), { c with uid := c.uid + 1 })

/-- `addMinutes` on the epoch-millisecond model. -/
def addMinutes (d m : ℚ) : ℚ := d + m * 60000

/-- JavaScript `String.prototype.trim`. -/
def strTrim (s : String) : String :=
  String.mk (((s.data.dropWhile Char.isWhitespace).reverse.dropWhile
    Char.isWhitespace).reverse)

-- ============================================
-- THREAD GENERATOR (src/lib/planner/threadGenerator.ts)
-- ============================================

/-- Case-insensitive global string replacement
(`s.replace(new RegExp(pat, 'ig'), rep)` for a pattern without regex
metacharacters).  Fuel-structured; the fuel is the input length, which the
scan never exceeds for a non-empty pattern. -/
def replaceAllCIAux (patLower rep : List Char) : List Char → ℕ → List Char
  | s, 0 => s
  | [], _ => []
  | c :: cs, fuel + 1 =>
    if patLower ≠ [] ∧ patLower.isPrefixOf ((c :: cs).map Char.toLower) then
      rep ++ replaceAllCIAux patLower rep ((c :: cs).drop patLower.length) fuel
    else c :: replaceAllCIAux patLower rep cs fuel

/-- `s.replace(new RegExp(pat, 'ig'), rep)`. -/
def replaceAllCI (s pat rep : String) : String :=
  String.mk (replaceAllCIAux (pat.data.map Char.toLower) rep.data s.data
    (s.data.length + 1))

/-- `sanitizePostTitle` (threadGenerator.ts). -/
def sanitizePostTitle (title : String) (company : Company)
    (preferences : Option GenerationPreferences) : String :=
  let next := strTrim title
  let next := if next = "" then "Thoughts on this?" else next
  let next :=
    if strIncludes (toLowerStr next) (toLowerStr company.name) then
      replaceAllCI next company.name "this tool"
    else next
  match preferences.bind (fun p => p.bannedPhrases) with
  | some phrases =>
    if phrases.length ≠ 0 then
      phrases.foldl (fun t phrase => strTrim (replaceAllCI t phrase "")) next
    else next
  | none => next

/-- The sentence tokenisation of `clampToLength`:
`split(/(?<=[.!?])\s+/)` — cut after sentence-ending punctuation followed
by whitespace, consuming the whitespace run. -/
def splitSentencesAux : List Char → List Char → ℕ → List String
  | cs, acc, 0 => [String.mk (acc.reverse ++ cs)]
  | [], acc, _ => [String.mk acc.reverse]
  | c :: cs, acc, fuel + 1 =>
    if (c = '.' || c = '!' || c = '?') &&
        (match cs with | d :: _ => d.isWhitespace | [] => false) then
      String.mk (c :: acc).reverse ::
        splitSentencesAux (cs.dropWhile Char.isWhitespace) [] fuel
    else splitSentencesAux cs (c :: acc) fuel

/-- Sentence list of a string, empties dropped (`.filter(Boolean)`).
The fuel bounds the scan by the input length and is never exhausted. -/
def splitSentences (s : String) : List String :=
  (splitSentencesAux s.data [] (s.data.length + 1)).filter (fun t => t ≠ "")

/-- The greedy sentence-accumulation loop of `clampToLength`. -/
def accumSentences (maxLen : ℚ) : List String → String → String
  | [], result => result
  | sentence :: rest, result =>
    let next := if result = "" then sentence else result ++ " " ++ sentence
    if (next.length : ℚ) > maxLen then result
    else accumSentences maxLen rest next

/-- Last index of the character in the list, `-1` when absent
(`String.prototype.lastIndexOf`). -/
def lastIndexOfChar (cs : List Char) (c : Char) : ℤ :=
  (cs.foldl (fun (acc : ℤ × ℤ) d =>
    (if d = c then acc.2 else acc.1, acc.2 + 1)) (-1, 0)).1

/-- `clampToLength` (threadGenerator.ts): greedily accumulate whole
sentences under the limit, falling back to a character cut at the last
sentence-ending punctuation above half the limit. -/
def clampToLength (text : String) (maxLen : ℚ) : String :=
  let trimmed := strTrim text
  if (trimmed.length : ℚ) ≤ maxLen then trimmed
  else
    let sentences := splitSentences trimmed
    let result := accumSentences maxLen sentences ""
    if result ≠ "" ∧ (result.length : ℚ) ≤ maxLen then result
    else
      let sliced := strTrim (String.mk (trimmed.data.take (⌊maxLen⌋).toNat))
      let lastPunct := max (lastIndexOfChar sliced.data '.')
        (max (lastIndexOfChar sliced.data '!') (lastIndexOfChar sliced.data '?'))
      let sliced :=
        if lastPunct > max 30 ⌊maxLen * 0.5⌋ then
          String.mk (sliced.data.take (lastPunct + 1).toNat)
        else sliced
      strTrim sliced

/-- `removeCompanyMention` (threadGenerator.ts): one backend rewrite call;
`null` unless it succeeds with a truthy variation. -/
def removeCompanyMention (env : GenEnv) (c : GenCounters) :
    Option String × GenCounters :=
  let call := callAI env c
  match call.1 with
  | AIResponse.variationContent v => (if v = "" then none else some v, call.2)
  | _ => (none, call.2)

/-- `regenerateComment` (threadGenerator.ts): one backend variation call;
`null` unless it succeeds with a truthy variation. -/
def regenerateComment (env : GenEnv) (c : GenCounters) :
    Option String × GenCounters :=
  let call := callAI env c
  match call.1 with
  | AIResponse.variationContent v => (if v = "" then none else some v, call.2)
  | _ => (none, call.2)

/-- `isCommentLowQuality` (threadGenerator.ts). -/
def isCommentLowQuality (text : String) (company : Company)
    (preferences : Option GenerationPreferences)
    (allowProductMention : Bool) : Bool :=
  let trimmed := strTrim text
  let tooShort :=
    match preferences.bind (fun p => p.minCommentLength) with
    | some m => m ≠ 0 ∧ (trimmed.length : ℚ) < m
    | none => false
  let tooLong :=
    match preferences.bind (fun p => p.maxCommentLength) with
    | some m => m ≠ 0 ∧ (trimmed.length : ℚ) > m
    | none => false
  let banned :=
    match preferences.bind (fun p => p.bannedPhrases) with
    | some phrases =>
      phrases.any (fun phrase =>
        strIncludes (toLowerStr trimmed) (toLowerStr phrase))
    | none => false
  tooShort || tooLong || banned ||
    (!allowProductMention &&
      strIncludes (toLowerStr trimmed) (toLowerStr company.name))

/-- `shouldMentionProduct` (threadGenerator.ts): a 30% coin, then an
expert-presence check. -/
def shouldMentionProduct (commenters : List Persona) (env : GenEnv)
    (c : GenCounters) : Bool × GenCounters :=
  let draw := nextRand env c
  if draw.1 > 0.3 then (false, draw.2)
  else
    (commenters.any (fun p => p.postingStyle = PostingStyle.gives_answers), draw.2)

/-- `shouldForceProductMention` (threadGenerator.ts). -/
def shouldForceProductMention (post : Post) : Bool :=
  let text := toLowerStr (post.title ++ " " ++ post.body)
  ["recommend", "tool", "software", "presentation", "slides", "deck", "ai",
    "template"].any (fun t => strIncludes text t)

/-- The first keyword of the slot with a falsy-string fallback
(`slot.keywords[0]?.keyword || fallback`). -/
def kwOr (slot : AssignedSlot) (fallback : String) : String :=
  match slot.keywords.head? with
  | some k => if k.keyword = "" then fallback else k.keyword
  | none => fallback

/-- `generateMockPost` (threadGenerator.ts): canned titles per thread type
and canned bodies, picked with two random draws. -/
def generateMockPost (slot : AssignedSlot) (env : GenEnv) (c : GenCounters) :
    (String × String) × GenCounters :=
  let titleOptions :=
    match slot.threadType with
    | ThreadType.question =>
      ["Best " ++ kwOr slot "tool" ++ " for " ++
        replaceFirst slot.subreddit.name "r/" "" ++ "?",
       "What\x27s everyone using for " ++ kwOr slot "this" ++ "?",
       "Looking for recommendations - " ++ kwOr slot "help needed"]
    | ThreadType.advice =>
      ["Need help with " ++ kwOr slot "something",
       "Tips for " ++ kwOr slot "improving workflow" ++ "?",
       "How do you handle " ++ kwOr slot "this challenge" ++ "?"]
    | ThreadType.story =>
      ["Just discovered " ++ kwOr slot "something cool",
       "Finally figured out " ++ kwOr slot "a solution",
       "My experience with " ++ kwOr slot "this approach"]
    | ThreadType.discussion =>
      ["What do you think about " ++ kwOr slot "this topic" ++ "?",
       kwOr slot "This topic" ++ " - thoughts?",
       "Anyone else noticed " ++ kwOr slot "this trend" ++ "?"]
  let bodies :=
    ["Been looking into this for a while and curious what others think. Any recommendations?",
     "Title says it all. Would love to hear your experiences.",
     "I\x27ve tried a few things but nothing quite fits. What\x27s worked for you?"]
  let draw₁ := nextRand env c
  let title := titleOptions.getD
    ((⌊draw₁.1 * (titleOptions.length : ℚ)⌋).toNat) ""
  let draw₂ := nextRand env draw₁.2
  let body := bodies.getD ((⌊draw₂.1 * (bodies.length : ℚ)⌋).toNat) ""
  ((title, body), draw₂.2)

/-- The canned expert replies of `generateMockComment` — two of the three
literally name the owning company of the repository's demo data. -/
def expertResponses : List String :=
  ["I\x27ve been using Slideforge for this - it handles the layout automatically so you can focus on content.",
   "Tried a few options. Slideforge was the one that actually saved me time.",
   "Yeah, this is a common issue. I\x27d recommend looking into tools that automate the formatting part."]

/-- The canned casual replies of `generateMockComment`. -/
def casualResponses : List String :=
  ["+1, interested in this too",
   "Same boat here. Following for recommendations.",
   "I\x27ve heard good things about a few tools, curious what others suggest."]

/-- `generateMockComment` (threadGenerator.ts); the `isFirst` parameter is
unused by its body. -/
def generateMockComment (persona : Persona) (env : GenEnv) (c : GenCounters) :
    String × GenCounters :=
  let responses :=
    if persona.postingStyle = PostingStyle.gives_answers then expertResponses
    else casualResponses
  let draw := nextRand env c
  (responses.getD ((⌊draw.1 * (responses.length : ℚ)⌋).toNat) "", draw.2)

/-- The mock-deduplication loop of `generateComments`: regenerate while the
canned text was already used, at most 5 attempts. -/
def dedupMockLoop (persona : Persona) (env : GenEnv)
    (used : List String) : ℕ → String → GenCounters → String × GenCounters
  | 0, m, c => (m, c)
  | fuel + 1, m, c =>
    if used.contains m then
      let regen := generateMockComment persona env c
      dedupMockLoop persona env used fuel regen.1 regen.2
    else (m, c)

/-- `sanitizePostBody` (threadGenerator.ts): in mock mode return the
trimmed body; in live mode, one bounded rewrite call when a constraint is
violated, one company-scrub call when the name is still present, then the
length clamp. -/
def sanitizePostBody (body : String) (company : Company)
    (preferences : Option GenerationPreferences) (keywords : List String)
    (env : GenEnv) (c : GenCounters) : String × GenCounters :=
  let next := strTrim body
  let lower := toLowerStr next
  let tooShort :=
    match preferences.bind (fun p => p.minPostLength) with
    | some m => m ≠ 0 ∧ (next.length : ℚ) < m
    | none => false
  let tooLong :=
    match preferences.bind (fun p => p.maxPostLength) with
    | some m => m ≠ 0 ∧ (next.length : ℚ) > m
    | none => false
  let hasCompany := strIncludes lower (toLowerStr company.name)
  let hasBanned :=
    match preferences.bind (fun p => p.bannedPhrases) with
    | some phrases => phrases.any (fun p => strIncludes lower (toLowerStr p))
    | none => false
  if env.mockMode then (next, c)
  else
    let missingKeyword :=
      if keywords.length ≠ 0 then
        !(keywords.any (fun kw => strIncludes lower (toLowerStr kw)))
      else false
    let step₁ :=
      if tooShort || tooLong || hasCompany || hasBanned || missingKeyword then
        let call := callAI env c
        match call.1 with
        | AIResponse.variationContent v =>
          (if v = "" then next else v, call.2)
        | _ => (next, call.2)
      else (next, c)
    let step₂ :=
      if strIncludes (toLowerStr step₁.1) (toLowerStr company.name) then
        let scrub := removeCompanyMention env step₁.2
        match scrub.1 with
        | some revised => (revised, scrub.2)
        | none => (step₁.1, scrub.2)
      else step₁
    match preferences.bind (fun p => p.maxPostLength) with
    | some m =>
      if m ≠ 0 ∧ (step₂.1.length : ℚ) > m then (clampToLength step₂.1 m, step₂.2)
      else step₂
    | none => step₂

/-- `generatePost` (threadGenerator.ts): canned content in mock mode; in
live mode one backend call whose reply must parse as `{title, body}`,
otherwise the slot's generation throws.  A thrown error still returns the
advanced stream counters (the source's random and backend streams are
global). -/
def generatePost (slot : AssignedSlot) (company : Company) (weekNumber : ℚ)
    (preferences : Option GenerationPreferences) (env : GenEnv)
    (c : GenCounters) : Except String Post × GenCounters :=
  let content :=
    if env.mockMode then
      let mock := generateMockPost slot env c
      (Except.ok (mock.1.1, mock.1.2), mockCallDelay mock.2)
    else
      let call := callAI env c
      match call.1 with
      | AIResponse.postContent title body => (Except.ok (title, body), call.2)
      | resp =>
        (Except.error ("AI post generation failed for " ++ slot.subreddit.name ++
          ": " ++ aiErrString resp), call.2)
  match content with
  | (Except.error e, c₁) => (Except.error e, c₁)
  | (Except.ok tb, c₁) =>
    let sanitized := sanitizePostBody tb.2 company preferences
      (slot.keywords.map (fun k => k.keyword)) env c₁
    let pid := generatePostId env sanitized.2
    (Except.ok
      { id := pid.1
        companyId := company.id
        weekNumber := weekNumber
        subredditId := slot.subreddit.id
        subredditName := slot.subreddit.name
        personaId := slot.opPersona.id
        personaUsername := slot.opPersona.username
        title := sanitizePostTitle tb.1 company preferences
        body := sanitized.1
        scheduledAt := slot.date
        keywordIds := slot.keywords.map (fun k => k.id)
        threadType := slot.threadType
        status := LifecycleStatus.draft }, pid.2)

/-- The `mentionIndices` construction of `generateComments`
(`while (mentionIndices.size < maxMentionCount) add(⌊random·len⌋)`).
The source loop has no iteration bound; the fuel is a generous stand-in
that is never exhausted on streams that reach the target. -/
def pickMentionIndices (env : GenEnv) (len : ℕ) (target : ℚ) :
    ℕ → List ℕ → GenCounters → List ℕ × GenCounters
  | 0, acc, c => (acc, c)
  | fuel + 1, acc, c =>
    if (acc.length : ℚ) < target then
      let draw := nextRand env c
      let idx := (⌊draw.1 * (len : ℚ)⌋).toNat
      pickMentionIndices env len target fuel
        (if acc.contains idx then acc else acc ++ [idx]) draw.2
    else (acc, c)

/-- `comments[i-1]?.id || null` — a falsy (empty) id becomes `null`. -/
def lastCommentId (comments : List Comment) : Option String :=
  match comments.getLast? with
  | some prev => if prev.id = "" then none else some prev.id
  | none => none

/-- The per-commenter loop of `generateComments`: draft the canned or
backend reply, then (live mode only) the bounded similarity, low-quality,
company-scrub and length regeneration passes, then the length clamp. -/
def commentsLoop (post : Post) (company : Company)
    (preferences : Option GenerationPreferences)
    (constraints : PlannerConstraints) (env : GenEnv)
    (mentionIndices : List ℕ) (mentionProductIndex : ℤ) :
    List Persona → ℕ → List Comment → List String → ℚ → GenCounters →
    Except String (List Comment × ℚ) × GenCounters
  | [], _, comments, _, lastTs, c => (Except.ok (comments, lastTs), c)
  | persona :: rest, i, comments, used, lastTs, c =>
    let delay := generateCommentDelay i false constraints env.rand c.rng
    let c₁ : GenCounters := { c with rng := delay.2 }
    let commentTime := addMinutes lastTs delay.1
    let draft :=
      if env.mockMode then
        let m₀ := generateMockComment persona env c₁
        let dd := dedupMockLoop persona env used 5 m₀.1 m₀.2
        let used' := if used.contains dd.1 then used else used ++ [dd.1]
        (Except.ok (dd.1, used'), mockCallDelay dd.2)
      else
        let call := callAI env c₁
        match call.1 with
        | AIResponse.textContent t => (Except.ok (t, used), call.2)
        | resp =>
          (Except.error ("AI comment generation failed for " ++
            persona.username ++ ": " ++ aiErrString resp), call.2)
    match draft with
    | (Except.error e, c₂) => (Except.error e, c₂)
    | (Except.ok (text₀, used'), c₂) =>
      -- similarity passes (live mode only)
      let stepA :=
        if env.mockMode then (text₀, c₂)
        else
          let s₁ :=
            if comments.any (fun prev =>
                calculateSimilarity prev.content text₀ > 0.5) then
              let r := regenerateComment env c₂
              (r.1.getD text₀, r.2)
            else (text₀, c₂)
          if comments.any (fun prev =>
              calculateSimilarity prev.content s₁.1 > 0.5) then
            let r := regenerateComment env s₁.2
            (r.1.getD s₁.1, r.2)
          else s₁
      -- low-quality pass (live mode only)
      let stepB :=
        if env.mockMode then stepA
        else if isCommentLowQuality stepA.1 company preferences
            (mentionIndices.contains i || (i : ℤ) = mentionProductIndex) then
          let r := regenerateComment env stepA.2
          (r.1.getD stepA.1, r.2)
        else stepA
      -- company-scrub pass (live mode only; note the inner `allowProduct`
      -- shadows the outer one and reads only the preference flag)
      let stepC :=
        if env.mockMode then stepB
        else
          let allowProductInner := preferences.bind (fun p => p.allowProductMention) ≠ some false
          if !allowProductInner &&
              strIncludes (toLowerStr stepB.1) (toLowerStr company.name) &&
              !((i : ℤ) = mentionProductIndex) && !(mentionIndices.contains i) then
            let r := removeCompanyMention env stepB.2
            (r.1.getD stepB.1, r.2)
          else stepB
      -- length / residual-similarity pass (live mode only)
      let stepD :=
        if env.mockMode then stepC
        else
          let trimmedLen := ((strTrim stepC.1).length : ℚ)
          let tooShort :=
            match preferences.bind (fun p => p.minCommentLength) with
            | some m => m ≠ 0 ∧ trimmedLen < m
            | none => false
          let tooLong :=
            match preferences.bind (fun p => p.maxCommentLength) with
            | some m => m ≠ 0 ∧ trimmedLen > m
            | none => false
          let stillTooSimilar := comments.any (fun prev =>
            calculateSimilarity prev.content stepC.1 > 0.5)
          if tooShort || tooLong || stillTooSimilar then
            let r := regenerateComment env stepC.2
            (r.1.getD stepC.1, r.2)
          else stepC
      let finalText :=
        match preferences.bind (fun p => p.maxCommentLength) with
        | some m =>
          if m ≠ 0 ∧ (stepD.1.length : ℚ) > m then clampToLength stepD.1 m
          else stepD.1
        | none => stepD.1
      let cid := generateCommentId env stepD.2
      let comment : Comment :=
        { id := cid.1
          postId := post.id
          parentCommentId := if i = 0 then none else lastCommentId comments
          personaId := persona.id
          personaUsername := persona.username
          content := finalText
          scheduledAt := commentTime
          delayMinutes := delay.1
          status := LifecycleStatus.draft }
      commentsLoop post company preferences constraints env mentionIndices
        mentionProductIndex rest (i + 1) (comments ++ [comment]) used'
        commentTime cid.2

/-- `generateOPFollowUp` (threadGenerator.ts). -/
def generateOPFollowUp (post : Post) (comments : List Comment)
    (slot : AssignedSlot) (company : Company)
    (lastTimestamp : ℚ) (constraints : PlannerConstraints) (env : GenEnv)
    (c : GenCounters) : Except String Comment × GenCounters :=
  let delay := generateCommentDelay 0 true constraints env.rand c.rng
  let c₁ : GenCounters := { c with rng := delay.2 }
  let commentTime := addMinutes lastTimestamp delay.1
  let content :=
    if env.mockMode then
      (Except.ok
        "Thanks everyone, this is really helpful! I\x27ll definitely check these out.",
       mockCallDelay c₁)
    else
      let call := callAI env c₁
      match call.1 with
      | AIResponse.textContent t => (Except.ok t, call.2)
      | resp =>
        (Except.error ("AI OP follow-up failed for " ++ slot.subreddit.name ++
          ": " ++ aiErrString resp), call.2)
  match content with
  | (Except.error e, c₂) => (Except.error e, c₂)
  | (Except.ok text₀, c₂) =>
    let scrubbed :=
      if !env.mockMode &&
          strIncludes (toLowerStr text₀) (toLowerStr company.name) then
        let r := removeCompanyMention env c₂
        (r.1.getD text₀, r.2)
      else (text₀, c₂)
    let cid := generateCommentId env scrubbed.2
    (Except.ok
      { id := cid.1
        postId := post.id
        parentCommentId := lastCommentId comments
        personaId := slot.opPersona.id
        personaUsername := slot.opPersona.username
        content := scrubbed.1
        scheduledAt := commentTime
        delayMinutes := delay.1
        status := LifecycleStatus.draft }, cid.2)

/-- The forced-mention reconciliation loop at the end of
`generateComments`: one `generateWithAI` call per remaining target (this
call is not mock-guarded in the source).  A target index beyond the
commenter list models the source's out-of-range access, which throws. -/
def mentionFixLoop (slot : AssignedSlot) (env : GenEnv) :
    List ℤ → List Comment → GenCounters →
    Except String (List Comment) × GenCounters
  | [], comments, c => (Except.ok comments, c)
  | idx :: rest, comments, c =>
    match slot.commenterPersonas.get?
        (min idx.toNat (slot.commenterPersonas.length - 1)) with
    | none =>
      (Except.error "TypeError: undefined commenter persona", c)
    | some persona =>
      let call := callAI env c
      let comments' :=
        match call.1 with
        | AIResponse.textContent t =>
          if t ≠ "" then
            match comments.findIdx? (fun cm => cm.personaId == persona.id) with
            | some targetIndex =>
              match comments.get? targetIndex with
              | some cm => comments.set targetIndex { cm with content := t }
              | none => comments
            | none => comments
          else comments
        | _ => comments
      mentionFixLoop slot env rest comments' call.2

/-- `generateComments` (threadGenerator.ts): mention planning, the
per-commenter loop, the optional OP follow-up, and the forced-mention
reconciliation. -/
def generateComments (post : Post) (slot : AssignedSlot) (company : Company)
    (preferences : Option GenerationPreferences)
    (constraints? : Option PlannerConstraints)
    (riskTolerance : Option RiskTolerance) (env : GenEnv) (c : GenCounters) :
    Except String (List Comment) × GenCounters :=
  let effectiveConstraints := constraints?.getD DEFAULT_CONSTRAINTS
  let subredditAllowsPromo :=
    (slot.subreddit.rules.bind (fun ru => ru.allowsSelfPromotion)) ≠ some false
  let allowProduct :=
    (preferences.bind (fun p => p.allowProductMention) ≠ some false) &&
    riskTolerance ≠ some RiskTolerance.low && subredditAllowsPromo
  let mentionTargetCount : ℚ :=
    if allowProduct then
      max 0 ((preferences.bind (fun p => p.productMentionCount)).getD 0)
    else 0
  let maxMentionCount :=
    min mentionTargetCount (slot.commenterPersonas.length : ℚ)
  let mi :=
    if allowProduct ∧ maxMentionCount > 0 then
      pickMentionIndices env slot.commenterPersonas.length maxMentionCount
        1000 [] c
    else ([], c)
  let mentionIndices := mi.1
  let forceProduct :=
    allowProduct && decide (maxMentionCount = 0) && shouldForceProductMention post
  let mp :=
    if allowProduct ∧ maxMentionCount = 0 then
      if forceProduct then ((0 : ℤ), mi.2)
      else
        let smp := shouldMentionProduct slot.commenterPersonas env mi.2
        if smp.1 then
          let draw := nextRand env smp.2
          ((⌊draw.1 * (slot.commenterPersonas.length : ℚ)⌋, draw.2) :
            ℤ × GenCounters)
        else ((-1 : ℤ), smp.2)
    else ((-1 : ℤ), mi.2)
  let mentionProductIndex := mp.1
  let di :=
    if (preferences.bind (fun p => p.requireDisagreement)).getD false ∧
        slot.commenterPersonas.length > 1 then
      let draw := nextRand env mp.2
      ((⌊draw.1 * (slot.commenterPersonas.length : ℚ)⌋ : ℤ), draw.2)
    else ((-1 : ℤ), mp.2)
  match commentsLoop post company preferences effectiveConstraints env
      mentionIndices mentionProductIndex slot.commenterPersonas 0 [] []
      post.scheduledAt di.2 with
  | (Except.error e, c₁) => (Except.error e, c₁)
  | (Except.ok (comments, lastTs), c₁) =>
    let coin := nextRand env c₁
    let afterFollowUp :=
      if coin.1 > 0.5 ∧ comments.length > 0 then
        match generateOPFollowUp post comments slot company lastTs
            effectiveConstraints env coin.2 with
        | (Except.error e, c₂) => (Except.error e, c₂)
        | (Except.ok fu, c₂) => (Except.ok (comments ++ [fu]), c₂)
      else (Except.ok comments, coin.2)
    match afterFollowUp with
    | (Except.error e, c₂) => (Except.error e, c₂)
    | (Except.ok comments', c₂) =>
      if allowProduct ∧ (maxMentionCount > 0 ∨ mentionProductIndex ≥ 0) then
        let mentionNeeded : ℚ := if maxMentionCount > 0 then maxMentionCount else 1
        let mentionCount := (comments'.filter (fun cm =>
          strIncludes (toLowerStr cm.content) (toLowerStr company.name))).length
        let missingCount : ℚ := max 0 (mentionNeeded - (mentionCount : ℚ))
        if missingCount > 0 then
          let targets : List ℤ :=
            if maxMentionCount > 0 then mentionIndices.map (fun n => (n : ℤ))
            else ([mentionProductIndex].filter (fun idx => idx ≥ 0))
          mentionFixLoop slot env (targets.take (⌊missingCount⌋).toNat)
            comments' c₂
        else (Except.ok comments', c₂)
      else (Except.ok comments', c₂)

/-- `generateThread` (threadGenerator.ts): the post, then its comments. -/
def generateThread (slot : AssignedSlot) (company : Company) (weekNumber : ℚ)
    (preferences : Option GenerationPreferences)
    (constraints? : Option PlannerConstraints)
    (riskTolerance : Option RiskTolerance) (env : GenEnv) (c : GenCounters) :
    Except String Thread × GenCounters :=
  match generatePost slot company weekNumber preferences env c with
  | (Except.error e, c₁) => (Except.error e, c₁)
  | (Except.ok post, c₁) =>
    match generateComments post slot company preferences constraints?
        riskTolerance env c₁ with
    | (Except.error e, c₂) => (Except.error e, c₂)
    | (Except.ok comments, c₂) =>
      (Except.ok { post := post, comments := comments, slot := slot }, c₂)

/-- `ThreadGeneratorResult` (metadata flattened; wall-clock timing is not
modelled). -/
structure ThreadGeneratorResult where
  threads : List Thread
  totalPosts : ℕ
  totalComments : ℕ
  errors : List String
deriving Repr

/-- The `for (const slot of slots)` try/catch loop of `generateThreads`:
a failed slot records an error and the loop continues with the remaining
slots. -/
def generateThreadsLoop (company : Company) (weekNumber : ℚ)
    (preferences : Option GenerationPreferences)
    (constraints? : Option PlannerConstraints)
    (riskTolerance : Option RiskTolerance) (env : GenEnv) :
    List AssignedSlot → List Thread → List String → GenCounters →
    List Thread × List String × GenCounters
  | [], threads, errors, c => (threads, errors, c)
  | slot :: rest, threads, errors, c =>
    match generateThread slot company weekNumber preferences constraints?
        riskTolerance env c with
    | (Except.ok thread, c') =>
      generateThreadsLoop company weekNumber preferences constraints?
        riskTolerance env rest (threads ++ [thread]) errors c'
    | (Except.error e, c') =>
      generateThreadsLoop company weekNumber preferences constraints?
        riskTolerance env rest threads
        (errors ++ ["Failed to generate thread for " ++ slot.subreddit.name ++
          ": " ++ e]) c'

/-- `generateThreads` (threadGenerator.ts). -/
def generateThreads (slots : List AssignedSlot) (company : Company)
    (weekNumber : ℚ) (preferences : Option GenerationPreferences)
    (constraints? : Option PlannerConstraints)
    (riskTolerance : Option RiskTolerance) (env : GenEnv) (c : GenCounters) :
    ThreadGeneratorResult × GenCounters :=
  let res := generateThreadsLoop company weekNumber preferences constraints?
    riskTolerance env slots [] [] c
  ({ threads := res.1
     totalPosts := res.1.length
     totalComments := (res.1.map (fun t => t.comments.length)).sum
     errors := res.2.1 }, res.2.2)

-- ============================================
-- CLAIM-SIDE SPECIFICATION DEFINITIONS
-- ============================================

/-- Spec-side scoring formula (from the spec's words, for comparison with
`calculateOverallScore`): `10 − 2·#high − 1·#medium − 0.5·#low −
0.3·#warnings + (0.5 if ≥ 3 threads)`, clamped to `[0, 10]` and rounded to
one decimal, with severity counts taken as filters rather than a fold. -/
def specOverallScore (issues : List QualityIssue) (warnings : List String)
    (threadCount : ℕ) : ℚ :=
  let high := (issues.filter (fun i => i.severity = IssueSeverity.high)).length
  let med := (issues.filter (fun i => i.severity = IssueSeverity.medium)).length
  let low := (issues.filter (fun i => i.severity = IssueSeverity.low)).length
  let raw := 10 - 2 * (high : ℚ) - 1 * (med : ℚ) - 0.5 * (low : ℚ) -
    0.3 * (warnings.length : ℚ) + (if threadCount ≥ 3 then 0.5 else 0)
  jsRound (max 0 (min 10 raw) * 10) / 10

/-- The unordered author–reactor pair of persona ids, in the JavaScript
sort order (spec-side representation for the pairing claims). -/
def normPair (a b : String) : String × String :=
  if strLtJs b a then (b, a) else (a, b)

/-- All (author, reactor) id pairs of a run's assigned slots, normalised
to unordered pairs (spec-side, from the claim's words). -/
def authorPairs (slots : List AssignedSlot) : List (String × String) :=
  (slots.map (fun s =>
    s.commenterPersonas.map (fun c => normPair s.opPersona.id c.id))).flatten

/-- The reactor–reactor id pairs of one slot (`i < j` order). -/
def commenterPairs : List Persona → List (String × String)
  | [] => []
  | c :: rest => rest.map (fun c2 => normPair c.id c2.id) ++ commenterPairs rest

/-- Every unordered persona pair of a run counted by the claim: each
slot's (author, reactor) pairs and (reactor, reactor) pairs, in order
(spec-side, from the claim's words). -/
def runPairs (slots : List AssignedSlot) : List (String × String) :=
  (slots.map (fun s =>
    s.commenterPersonas.map (fun c => normPair s.opPersona.id c.id) ++
      commenterPairs s.commenterPersonas)).flatten

/-- The author–reactor pairing keys of one assigned slot, as the source
records them (`createPairingKey(op.id, c.id)` per reactor). -/
def slotAuthorKeys (s : AssignedSlot) : List String :=
  s.commenterPersonas.map (fun c => createPairingKey s.opPersona.id c.id)

/-- The number of posts a batch schedules into the venue with the given
name (spec-side count for the overposting claims). -/
def postsInVenue (threads : List Thread) (venue : String) : ℕ :=
  (threads.filter (fun t => t.post.subredditName = venue)).length

/-- The post ids a batch schedules into the venue with the given name. -/
def postIdsInVenue (threads : List Thread) (venue : String) : List String :=
  (threads.filter (fun t => t.post.subredditName = venue)).map
    (fun t => t.post.id)

/-- The number of matched slots the matcher assigns to the subreddit with
the given id (spec-side count for the venue-cap claim). -/
def matchedSlotsFor (slots : List MatchedSlot) (subId : String) : ℕ :=
  (slots.filter (fun s => s.subreddit.id = subId)).length

/-- The full canned mock-reply pool: the expert and casual comment
responses and the canned OP follow-up. -/
def mockReplyPool : List String :=
  expertResponses ++ casualResponses ++
    ["Thanks everyone, this is really helpful! I\x27ll definitely check these out."]

-- ============================================
-- CONCRETE INPUTS FOR COUNTEREXAMPLES AND WITNESSES
-- ============================================

/-- A balanced persona with the given id and username. -/
def mkPersona (pid uname : String) : Persona :=
  { id := pid, username := uname, postingStyle := PostingStyle.balanced }

/-- A plain test subreddit. -/
def subTest : Subreddit := { id := "s1", name := "r/test" }

/-- A matched discussion slot at the given timestamp in `r/test`. -/
def slotAt (d : ℚ) : MatchedSlot :=
  { date := d, dayOfWeek := 1, timeOfDay := TimeOfDay.morning,
    subreddit := subTest, keywords := [], threadType := ThreadType.discussion }

/-- Default constraints with a zero weekly comment cap. -/
def consNoComments : PlannerConstraints :=
  { DEFAULT_CONSTRAINTS with maxCommentsPerPersonaPerWeek := 0 }

/-- Default constraints with a one-persona thread cap. -/
def consOnePersona : PlannerConstraints :=
  { DEFAULT_CONSTRAINTS with maxPersonasPerThread := 1 }

/-- The all-zero random stream. -/
def randZero : Nat → ℚ := fun _ => 0

/-- Four balanced personas with distinct ids. -/
def personas4 : List Persona :=
  [mkPersona "a" "ua", mkPersona "b" "ub", mkPersona "x" "ux", mkPersona "y" "uy"]

/-- A random stream driving the two-slot pairing run: slot 1 selects OP
`a` with commenters `x, y`; slot 2 selects OP `b` with commenters `a, x`,
repeating the unordered pair `{a, x}`. -/
def randPairing : Nat → ℚ := fun i =>
  ([0.9, 0, 0.1, 0.2, 0.75, 0, 0.9, 0.8, 0, 0.9, 0, 0, 0.75, 0, 0.9, 0.8] :
    List ℚ).getD i 0

/-- A minimal post in the given venue. -/
def mkPostIn (venueName pid : String) : Post :=
  { id := pid, companyId := "c1", weekNumber := 1, subredditId := "sub-" ++ venueName,
    subredditName := venueName, personaId := "p1", personaUsername := "u1",
    title := "title", body := "body", scheduledAt := 0, keywordIds := [],
    threadType := ThreadType.discussion, status := LifecycleStatus.draft }

/-- A slot used only to satisfy the `Thread.slot` field of hand-built
threads. -/
def dummyAssignedSlot : AssignedSlot :=
  { date := 0, dayOfWeek := 1, timeOfDay := TimeOfDay.morning,
    subreddit := subTest, keywords := [], threadType := ThreadType.discussion,
    opPersona := mkPersona "p1" "u1", commenterPersonas := [] }

/-- A comment-free thread in the given venue. -/
def mkThreadIn (venueName pid : String) : Thread :=
  { post := mkPostIn venueName pid, comments := [], slot := dummyAssignedSlot }

/-- `r/consulting` — the venue whose preset lowers the weekly cap to 1. -/
def consultingSub : Subreddit := { id := "sc", name := "r/consulting" }

/-- Two threads in `r/consulting`: above the effective per-venue cap (1)
but not above the hard-coded default cap (2). -/
def consultingThreads : List Thread :=
  [mkThreadIn "r/consulting" "post_1", mkThreadIn "r/consulting" "post_2"]

/-- Three threads in one venue: above the default cap of 2. -/
def overpostedThreads : List Thread :=
  [mkThreadIn "r/test" "post_1", mkThreadIn "r/test" "post_2",
   mkThreadIn "r/test" "post_3"]

/-- A failing slot in `r/alpha` (no commenters). -/
def cex4SlotFail : AssignedSlot :=
  { date := 0, dayOfWeek := 1, timeOfDay := TimeOfDay.morning,
    subreddit := { id := "sa", name := "r/alpha" }, keywords := [],
    threadType := ThreadType.discussion, opPersona := mkPersona "p1" "u1",
    commenterPersonas := [] }

/-- A succeeding slot in `r/beta` (no commenters). -/
def cex4SlotOk : AssignedSlot :=
  { date := 0, dayOfWeek := 1, timeOfDay := TimeOfDay.morning,
    subreddit := { id := "sb", name := "r/beta" }, keywords := [],
    threadType := ThreadType.discussion, opPersona := mkPersona "p2" "u2",
    commenterPersonas := [] }

/-- Live-mode environment whose first backend reply is a typed failure and
whose later replies are a well-formed post payload. -/
def cex4Env : GenEnv :=
  { rand := randZero
    uuid := fun _ => "uuuuuuuuuuuu"
    backend := fun n =>
      if n = 0 then AIResponse.failure "boom"
      else AIResponse.postContent "Weekly check in" "Some thoughts about planning ahead."
    mockMode := false }

/-- The hand-built post of the mock-mode runs (no forced-mention trigger
words, no company name). -/
def cex5Post : Post :=
  { id := "post_x", companyId := "c9", weekNumber := 1, subredditId := "s1",
    subredditName := "r/test", personaId := "p1", personaUsername := "u1",
    title := "Weekly check", body := "Some thoughts on planning.",
    scheduledAt := 0, keywordIds := [], threadType := ThreadType.discussion,
    status := LifecycleStatus.draft }

/-- A slot whose single commenter is a `gives_answers` persona (the canned
expert replies name the demo company). -/
def cex5Slot : AssignedSlot :=
  { date := 0, dayOfWeek := 1, timeOfDay := TimeOfDay.morning,
    subreddit := subTest, keywords := [], threadType := ThreadType.discussion,
    opPersona := mkPersona "p1" "u1",
    commenterPersonas :=
      [{ id := "e1", username := "expert1",
         postingStyle := PostingStyle.gives_answers }] }

/-- A mock-mode environment with the all-zero random stream. -/
def cex5Env : GenEnv :=
  { rand := randZero
    uuid := fun _ => "uuuuuuuuuuuu"
    backend := fun _ => AIResponse.failure "unused"
    mockMode := true }

/-- A slot whose single commenter is a balanced persona. -/
def c5wSlot : AssignedSlot :=
  { date := 0, dayOfWeek := 1, timeOfDay := TimeOfDay.morning,
    subreddit := subTest, keywords := [], threadType := ThreadType.discussion,
    opPersona := mkPersona "p1" "u1",
    commenterPersonas := [mkPersona "e2" "casual1"] }

/-- Preferences forbidding product mentions (no length clamp). -/
def c5wPrefs : GenerationPreferences := { allowProductMention := some false }

/-- The single comment the mock witness run produces. -/
def c5wComment : Comment :=
  { id := "comment_uuuuuuuu", postId := "post_x", parentCommentId := none,
    personaId := "e2", personaUsername := "casual1",
    content := "+1, interested in this too", scheduledAt := 900000,
    delayMinutes := 15, status := LifecycleStatus.draft }

/-- First slot of the four-persona pairing run. -/
def c2Slot1 : AssignedSlot :=
  { toMatchedSlot := slotAt 0, opPersona := mkPersona "a" "ua",
    commenterPersonas := [mkPersona "x" "ux", mkPersona "y" "uy"] }

/-- Second slot of the four-persona pairing run. -/
def c2Slot2 : AssignedSlot :=
  { toMatchedSlot := slotAt 172800000, opPersona := mkPersona "b" "ub",
    commenterPersonas := [mkPersona "a" "ua", mkPersona "x" "ux"] }

/-- The full assigner result of the four-persona pairing run. -/
def c2wRes : PersonaAssignerResult :=
  { slots := [c2Slot1, c2Slot2],
    personaDistribution :=
      [("ua", (1, 1)), ("ub", (1, 0)), ("ux", (0, 2)), ("uy", (0, 1))],
    pairingsUsed := ["a+x", "a+y", "x+y", "a+b", "b+x"],
    warnings := [] }

/-- The assigned slot of the two-persona witness run. -/
def c1wSlot : AssignedSlot :=
  { toMatchedSlot := slotAt 0, opPersona := mkPersona "a" "ua",
    commenterPersonas := [mkPersona "b" "ub"] }

/-- The full assigner result of the two-persona witness run. -/
def c1wRes : PersonaAssignerResult :=
  { slots := [c1wSlot],
    personaDistribution := [("ua", (1, 0)), ("ub", (0, 1))],
    pairingsUsed := ["a+b"],
    warnings := [] }

/-- A high-sensitivity subreddit: its effective cap under the defaults is
`max 1 (2 - 1) = 1`. -/
def subHigh : Subreddit :=
  { id := "sh", name := "r/high", sensitivity := some Sensitivity.high }

/-- A medium-sensitivity companion venue. -/
def subOther : Subreddit := { id := "so", name := "r/other" }

/-- Three time slots three days apart (so the default
`minDaysBetweenSubredditPosts = 3` never blocks a venue). -/
def cex6Slots : List TimeSlot :=
  [{ date := 0, dayOfWeek := 1, timeOfDay := TimeOfDay.morning },
   { date := 259200000, dayOfWeek := 4, timeOfDay := TimeOfDay.morning },
   { date := 518400000, dayOfWeek := 7, timeOfDay := TimeOfDay.morning }]

/-- A random stream steering the matcher onto the sensitive venue twice. -/
def cex6Rand : Nat → ℚ := fun i => [0.9, 0, 0, 0.9, 0.9, 0].getD i 0

/-- A planning request asking for 5 posts with a single venue whose weekly
cap is the default 2: capacity-infeasible, otherwise well formed. -/
def capacityInput : PlannerInput :=
  { company := { id := "c1", name := "Acme" }
    personas :=
      [{ id := "p1", username := "u1", bio := "bio one",
         postingStyle := PostingStyle.balanced },
       { id := "p2", username := "u2", bio := "bio two",
         postingStyle := PostingStyle.balanced }]
    subreddits := [subTest]
    keywords := [{ id := "k1", keyword := "slides" }]
    postsPerWeek := 5
    weekStartDate := some 0 }

end RM

namespace RM

/-- C10: `calculateSimilarity` always returns a value in `[0, 1]`, is
symmetric in its two arguments, and returns `0` whenever either string has
no word token longer than 3 characters. -/
theorem calculateSimilarity_bounded_symm_zero (a b : String) :
    0 ≤ calculateSimilarity a b ∧ calculateSimilarity a b ≤ 1 ∧
    calculateSimilarity a b = calculateSimilarity b a ∧
    ((tokenSet a = ∅ ∨ tokenSet b = ∅) → calculateSimilarity a b = 0) := by
  unfold calculateSimilarity
  by_cases h : (tokenSet a).card = 0 ∨ (tokenSet b).card = 0
  · have h' : (tokenSet b).card = 0 ∨ (tokenSet a).card = 0 := h.symm
    rw [if_pos h, if_pos h']
    exact ⟨le_refl 0, by norm_num, rfl, fun _ => rfl⟩
  · push_neg at h
    obtain ⟨ha, hb⟩ := h
    have hcond : ¬((tokenSet a).card = 0 ∨ (tokenSet b).card = 0) := by
      push_neg; exact ⟨ha, hb⟩
    have hcond' : ¬((tokenSet b).card = 0 ∨ (tokenSet a).card = 0) := by
      push_neg; exact ⟨hb, ha⟩
    have hunion : 0 < (((tokenSet a ∪ tokenSet b).card : ℚ)) := by
      have h1 : (tokenSet a).card ≤ (tokenSet a ∪ tokenSet b).card :=
        Finset.card_le_card Finset.subset_union_left
      have h2 : 0 < (tokenSet a ∪ tokenSet b).card := by omega
      exact_mod_cast h2
    refine ⟨?_, ?_, ?_, ?_⟩
    · simp only [if_neg hcond]
      positivity
    · simp only [if_neg hcond]
      apply div_le_one_of_le₀
      · exact_mod_cast Finset.card_le_card (Finset.inter_subset_union)
      · exact le_of_lt hunion
    · simp only [if_neg hcond, if_neg hcond']
      rw [Finset.inter_comm, Finset.union_comm]
    · intro hcase
      exfalso
      rcases hcase with hc | hc
      · exact ha (by rw [hc]; exact Finset.card_empty)
      · exact hb (by rw [hc]; exact Finset.card_empty)

/-- Witness for C10 at concrete strings: `"hi ok"` has no token longer
than 3 characters, so the similarity against any string is `0`. -/
theorem calculateSimilarity_bounded_symm_zero_witness :
    calculateSimilarity "hi ok" "whatever words" = 0 :=
  (calculateSimilarity_bounded_symm_zero "hi ok" "whatever words").2.2.2
    (Or.inl (by decide))

-- ============================================
-- C7: overall-score formula and per-thread score bounds
-- ============================================

/-- The issue fold of `calculateOverallScore` subtracts exactly
`2·#high + 1·#medium + 0.5·#low` from its start value. -/
theorem overallScore_fold_eq (issues : List QualityIssue) (s : ℚ) :
    issues.foldl
      (fun score issue =>
        match issue.severity with
        | IssueSeverity.high => score - 2
        | IssueSeverity.medium => score - 1
        | IssueSeverity.low => score - 0.5)
      s =
    s - 2 * ((issues.filter (fun i => i.severity = IssueSeverity.high)).length : ℚ)
      - 1 * ((issues.filter (fun i => i.severity = IssueSeverity.medium)).length : ℚ)
      - 0.5 * ((issues.filter (fun i => i.severity = IssueSeverity.low)).length : ℚ) := by
  induction issues generalizing s with
  | nil => simp
  | cons issue rest ih =>
    cases hsev : issue.severity <;>
      simp only [List.foldl_cons, List.filter_cons, hsev] <;>
      rw [ih] <;> simp [hsev] <;> push_cast <;> ring

/-- `x ↦ round(x·10)/10` is monotone. -/
theorem jsRound10_mono {a b : ℚ} (hab : a ≤ b) :
    jsRound (a * 10) / 10 ≤ jsRound (b * 10) / 10 := by
  unfold jsRound
  have h : (⌊a * 10 + 1 / 2⌋ : ℤ) ≤ ⌊b * 10 + 1 / 2⌋ :=
    Int.floor_le_floor (by linarith)
  have h' : ((⌊a * 10 + 1 / 2⌋ : ℤ) : ℚ) ≤ ((⌊b * 10 + 1 / 2⌋ : ℤ) : ℚ) := by
    exact_mod_cast h
  linarith

/-- `0` is a fixed point of rounding to one decimal. -/
theorem jsRound10_zero : jsRound (0 * 10) / 10 = 0 := by
  unfold jsRound
  norm_num [Int.floor_eq_iff]

/-- `10` is a fixed point of rounding to one decimal. -/
theorem jsRound10_ten : jsRound (10 * 10) / 10 = 10 := by
  unfold jsRound
  norm_num [Int.floor_eq_iff]

/-- Rounding to one decimal commutes with clamping to `[0, 10]`
(the endpoints are fixed points of the rounding). -/
theorem round_clamp_comm (raw : ℚ) :
    max 0 (min 10 (jsRound (raw * 10) / 10)) =
      jsRound (max 0 (min 10 raw) * 10) / 10 := by
  rcases le_or_lt raw 0 with h0 | h0
  · have hmin : min 10 raw = raw := min_eq_right (by linarith)
    have hmax : max 0 (min 10 raw) = 0 := by rw [hmin]; exact max_eq_left h0
    rw [hmax, jsRound10_zero]
    have hle : jsRound (raw * 10) / 10 ≤ 0 := by
      have := jsRound10_mono h0
      rwa [jsRound10_zero] at this
    rw [min_eq_right (by linarith : jsRound (raw * 10) / 10 ≤ 10)]
    exact max_eq_left hle
  · rcases le_or_lt 10 raw with h10 | h10
    · have hmin : min 10 raw = 10 := min_eq_left h10
      have hmax : max 0 (min 10 raw) = 10 := by rw [hmin]; norm_num
      rw [hmax, jsRound10_ten]
      have hge : 10 ≤ jsRound (raw * 10) / 10 := by
        have := jsRound10_mono h10
        rwa [jsRound10_ten] at this
      rw [min_eq_left hge]
      norm_num
    · have hmin : min 10 raw = raw := min_eq_right (by linarith)
      have hmax : max 0 (min 10 raw) = raw := by
        rw [hmin]; exact max_eq_right (by linarith)
      rw [hmax]
      have hge : 0 ≤ jsRound (raw * 10) / 10 := by
        have := jsRound10_mono h0.le
        rwa [jsRound10_zero] at this
      have hle : jsRound (raw * 10) / 10 ≤ 10 := by
        have := jsRound10_mono h10.le
        rwa [jsRound10_ten] at this
      rw [min_eq_right hle, max_eq_right hge]

/-- C7: for every issue list, warning list and thread count, the batch
overall score equals the spec's formula — 10.0 minus 2/1/0.5 per
high/medium/low issue, minus 0.3 per warning, plus a 0.5 bonus for ≥ 3
threads, clamped to [0, 10] and rounded to one decimal — and the
per-thread score from `scoreThread` always lies in [0, 10]. -/
theorem overallScore_formula_and_scoreThread_bounds :
    (∀ (issues : List QualityIssue) (warnings : List String) (threadCount : ℕ),
      calculateOverallScore issues warnings threadCount =
        specOverallScore issues warnings threadCount) ∧
    (∀ (thread : Thread) (company : Company),
      0 ≤ (scoreThread thread company).1 ∧ (scoreThread thread company).1 ≤ 10) := by
  constructor
  · intro issues warnings threadCount
    unfold calculateOverallScore specOverallScore
    rw [overallScore_fold_eq]
    rw [← round_clamp_comm]
    congr 2
    split <;> push_cast <;> ring
  · intro thread company
    unfold scoreThread
    constructor <;> dsimp only <;> split_ifs <;> norm_num

-- ============================================
-- C9: quality-engine idempotence
-- ============================================

/-- C9: running `checkQuality` twice on the same unchanged thread list —
the second run taking the first run's `validatedThreads` with the same
company, subreddits, constraints and options — yields an identical
`QualityCheckResult`, hence an identical report (score, issues, warnings,
suggestions and per-post index maps).  The checker is a pure function and
returns its input threads unmodified. -/
theorem checkQuality_idempotent (config : QualityCheckConfig) :
    checkQuality { config with threads := (checkQuality config).validatedThreads } =
      checkQuality config := by
  have h : (checkQuality config).validatedThreads = config.threads := rfl
  rw [h]

-- ============================================
-- ASSOCIATION-LIST LEMMAS
-- ============================================

/-- Unfolding an association-list read over a cons cell. -/
theorem alistGet_cons {κ α : Type} [BEq κ] (a : κ) (b : α)
    (rest : List (κ × α)) (k : κ) :
    alistGet ((a, b) :: rest) k =
      if a == k then some b else alistGet rest k := by
  simp only [alistGet, List.find?]
  cases h : (a == k) <;> simp [h]

/-- Reading back an association-list write. -/
theorem alistGet_set {κ α : Type} [BEq κ] [LawfulBEq κ] [DecidableEq κ]
    (m : List (κ × α)) (k : κ) (v : α) (k' : κ) :
    alistGet (alistSet m k v) k' = if k' = k then some v else alistGet m k' := by
  induction m with
  | nil =>
    rw [show alistSet ([] : List (κ × α)) k v = [(k, v)] from rfl, alistGet_cons]
    by_cases h : k' = k
    · subst h; simp
    · simp [h, Ne.symm h]
  | cons e rest ih =>
    obtain ⟨a, b⟩ := e
    show alistGet (if a == k then (k, v) :: rest else (a, b) :: alistSet rest k v) k' = _
    by_cases hak : a = k
    · subst hak
      rw [if_pos (by simp), alistGet_cons, alistGet_cons]
      by_cases h : k' = a
      · subst h; simp
      · simp [h, Ne.symm h]
    · rw [if_neg (by simp [hak]), alistGet_cons, alistGet_cons, ih]
      by_cases h : k' = a
      · subst h
        simp [hak]
      · simp [h, Ne.symm h]

/-- The key set of an association-list write. -/
theorem alistSet_keys {κ α : Type} [BEq κ] [LawfulBEq κ] [DecidableEq κ]
    (m : List (κ × α)) (k : κ) (v : α) :
    (alistSet m k v).map Prod.fst =
      if k ∈ m.map Prod.fst then m.map Prod.fst else m.map Prod.fst ++ [k] := by
  induction m with
  | nil => simp [alistSet]
  | cons e rest ih =>
    obtain ⟨a, b⟩ := e
    show (if a == k then (k, v) :: rest else (a, b) :: alistSet rest k v).map
      Prod.fst = _
    by_cases hak : a = k
    · subst hak
      rw [if_pos (by simp)]
      simp
    · rw [if_neg (by simpa using hak)]
      by_cases hk : k ∈ rest.map Prod.fst
      · have : k ∈ ((a, b) :: rest).map Prod.fst := by simp [hk]
        rw [if_pos this]
        simp only [List.map_cons, ih, if_pos hk]
      · have : k ∉ ((a, b) :: rest).map Prod.fst := by
          simp [hk, Ne.symm hak]
        rw [if_neg this]
        simp only [List.map_cons, ih, if_neg hk, List.cons_append]

/-- An association-list write preserves duplicate-free keys. -/
theorem alistSet_keys_nodup {κ α : Type} [BEq κ] [LawfulBEq κ] [DecidableEq κ]
    (m : List (κ × α)) (k : κ) (v : α)
    (h : (m.map Prod.fst).Nodup) : ((alistSet m k v).map Prod.fst).Nodup := by
  rw [alistSet_keys]
  split
  · exact h
  · next hk =>
    rw [List.nodup_append]
    refine ⟨h, List.nodup_singleton k, ?_⟩
    intro x hx hxk
    rcases List.mem_singleton.mp hxk with rfl
    exact hk hx

/-- With duplicate-free keys, membership determines the lookup. -/
theorem alistGet_of_mem {κ α : Type} [BEq κ] [LawfulBEq κ]
    {m : List (κ × α)} {k : κ} {v : α}
    (hnd : (m.map Prod.fst).Nodup) (hmem : (k, v) ∈ m) :
    alistGet m k = some v := by
  induction m with
  | nil => cases hmem
  | cons e rest ih =>
    obtain ⟨a, b⟩ := e
    rw [alistGet_cons]
    rcases List.mem_cons.mp hmem with heq | htail
    · cases heq
      simp
    · have ha : a ≠ k := by
        intro hak
        subst hak
        have hmem' : a ∈ rest.map Prod.fst := List.mem_map.mpr ⟨(a, v), htail, rfl⟩
        exact (List.nodup_cons.mp (by simpa using hnd)).1 hmem'
      rw [if_neg (by simpa using ha)]
      exact ih (List.nodup_cons.mp (by simpa using hnd)).2 htail

/-- A successful lookup witnesses membership. -/
theorem mem_of_alistGet {κ α : Type} [BEq κ] [LawfulBEq κ]
    {m : List (κ × α)} {k : κ} {v : α} (h : alistGet m k = some v) :
    (k, v) ∈ m := by
  induction m with
  | nil => simp [alistGet] at h
  | cons e rest ih =>
    obtain ⟨a, b⟩ := e
    rw [alistGet_cons] at h
    by_cases hak : a = k
    · subst hak
      rw [if_pos (by simp)] at h
      cases h
      exact List.mem_cons_self _ _
    · rw [if_neg (by simpa using hak)] at h
      exact List.mem_cons_of_mem _ (ih h)

-- ============================================
-- C8: the overposting check and the effective cap
-- ============================================

/-- What the overposting tally holds for each venue: the batch's post
count and post ids for that venue, accumulated left to right. -/
theorem overpostCountsAux_get (ts : List Thread)
    (m : List (String × (ℕ × List String))) (v : String) :
    alistGet (ts.foldl
      (fun m t =>
        let e := (alistGet m t.post.subredditName).getD (0, [])
        alistSet m t.post.subredditName (e.1 + 1, e.2 ++ [t.post.id])) m) v =
      match alistGet m v with
      | some e => some (e.1 + postsInVenue ts v, e.2 ++ postIdsInVenue ts v)
      | none =>
        if postsInVenue ts v = 0 then none
        else some (postsInVenue ts v, postIdsInVenue ts v) := by
  induction ts generalizing m with
  | nil =>
    cases h : alistGet m v <;> simp [postsInVenue, postIdsInVenue, h]
  | cons t ts ih =>
    simp only [List.foldl_cons]
    rw [ih]
    by_cases hv : t.post.subredditName = v
    · subst hv
      rw [alistGet_set, if_pos rfl]
      cases h : alistGet m t.post.subredditName with
      | none =>
        simp only [h, Option.getD_none]
        have hcnt : postsInVenue (t :: ts) t.post.subredditName =
            postsInVenue ts t.post.subredditName + 1 := by
          simp [postsInVenue]
        have hids : postIdsInVenue (t :: ts) t.post.subredditName =
            t.post.id :: postIdsInVenue ts t.post.subredditName := by
          simp [postIdsInVenue]
        rw [hcnt, hids, if_neg (Nat.succ_ne_zero _)]
        simp only [Option.some.injEq, Prod.mk.injEq, List.nil_append,
          List.singleton_append, List.cons_append]
        exact ⟨by omega, trivial⟩
      | some e =>
        simp only [h, Option.getD_some]
        have hcnt : postsInVenue (t :: ts) t.post.subredditName =
            postsInVenue ts t.post.subredditName + 1 := by
          simp [postsInVenue]
        have hids : postIdsInVenue (t :: ts) t.post.subredditName =
            t.post.id :: postIdsInVenue ts t.post.subredditName := by
          simp [postIdsInVenue]
        rw [hcnt, hids]
        simp only [Option.some.injEq, Prod.mk.injEq, List.append_assoc,
          List.singleton_append]
        exact ⟨by omega, trivial⟩
    · rw [alistGet_set, if_neg (fun hvv => hv hvv.symm)]
      have hcnt : postsInVenue (t :: ts) v = postsInVenue ts v := by
        simp [postsInVenue, hv]
      have hids : postIdsInVenue (t :: ts) v = postIdsInVenue ts v := by
        simp [postIdsInVenue, hv]
      rw [hcnt, hids]

/-- The overposting tally read at a venue name. -/
theorem overpostCounts_get (ts : List Thread) (v : String) :
    alistGet (overpostCounts ts) v =
      if postsInVenue ts v = 0 then none
      else some (postsInVenue ts v, postIdsInVenue ts v) := by
  have h := overpostCountsAux_get ts [] v
  simpa [overpostCounts, alistGet] using h

/-- The overposting tally has duplicate-free keys. -/
theorem overpostCounts_keys_nodup (ts : List Thread) :
    ((overpostCounts ts).map Prod.fst).Nodup := by
  have hgen : ∀ (l : List Thread) (m : List (String × (ℕ × List String))),
      (m.map Prod.fst).Nodup →
      ((l.foldl (fun m t =>
        let e := (alistGet m t.post.subredditName).getD (0, [])
        alistSet m t.post.subredditName (e.1 + 1, e.2 ++ [t.post.id])) m).map
          Prod.fst).Nodup := by
    intro l
    induction l with
    | nil => intro m hm; simpa using hm
    | cons t ts ih =>
      intro m hm
      exact ih _ (alistSet_keys_nodup _ _ _ hm)
  exact hgen ts [] (by simp)

/-- The post-id list for a venue has one entry per counted post. -/
theorem postIdsInVenue_length (ts : List Thread) (v : String) :
    (postIdsInVenue ts v).length = postsInVenue ts v := by
  simp [postIdsInVenue, postsInVenue]

/-- C8 (amended): `checkOverposting` flags a venue — as a high-severity
overposting issue carrying that venue's post ids — exactly when the
venue's post count in the batch exceeds the hard-coded
`DEFAULT_CONSTRAINTS.maxPostsPerSubredditPerWeek` of 2; the
sensitivity/preset-adjusted effective cap of `getSubredditConstraints` is
not consulted. -/
theorem checkOverposting_flags_iff_default_cap (threads : List Thread)
    (v : String) :
    (∃ issue ∈ checkOverposting threads,
       issue.type = IssueType.overposting ∧
       issue.severity = IssueSeverity.high ∧
       issue.affectedPostIds = some (postIdsInVenue threads v)) ↔
    2 < postsInVenue threads v := by
  constructor
  · rintro ⟨issue, hmem, -, -, hids⟩
    unfold checkOverposting at hmem
    rcases List.mem_filterMap.mp hmem with ⟨e, hem, hfe⟩
    split at hfe
    · next hgt =>
      cases hfe
      have hget : alistGet (overpostCounts threads) e.1 = some e.2 :=
        alistGet_of_mem (overpostCounts_keys_nodup threads)
          (by cases e; exact hem)
      rw [overpostCounts_get] at hget
      split at hget
      · cases hget
      · next hne =>
        have he2 : e.2 = (postsInVenue threads e.1, postIdsInVenue threads e.1) :=
          (Option.some.inj hget).symm
        simp only [Option.some.injEq] at hids
        have hlen : (postIdsInVenue threads v).length =
            (postIdsInVenue threads e.1).length := by rw [← hids, he2]
        rw [postIdsInVenue_length, postIdsInVenue_length] at hlen
        have hcast : (2 : ℚ) < (e.2.1 : ℚ) := by
          simpa [DEFAULT_CONSTRAINTS] using hgt
        have : 2 < e.2.1 := by exact_mod_cast hcast
        rw [he2] at this
        simp only at this
        omega
    · cases hfe
  · intro hgt
    refine ⟨{ type := IssueType.overposting
              severity := IssueSeverity.high
              message := v ++ " has " ++ toString (postsInVenue threads v) ++
                " posts this week (max: " ++
                numToString DEFAULT_CONSTRAINTS.maxPostsPerSubredditPerWeek ++ ")"
              affectedPostIds := some (postIdsInVenue threads v) },
            ?_, rfl, rfl, rfl⟩
    unfold checkOverposting
    apply List.mem_filterMap.mpr
    refine ⟨(v, (postsInVenue threads v, postIdsInVenue threads v)), ?_, ?_⟩
    · apply mem_of_alistGet
      rw [overpostCounts_get]
      rw [if_neg (by omega)]
    · rw [if_pos (by
        simp only [DEFAULT_CONSTRAINTS]
        exact_mod_cast hgt)]

/-- C8 counterexample: two posts in `r/consulting` exceed the venue's
effective cap of 1 (preset-adjusted by `getSubredditConstraints`), yet
`checkOverposting` raises no issue, because it compares against the
hard-coded default cap of 2. -/
theorem checkOverposting_ignores_effective_cap_cex :
    (getSubredditConstraints consultingSub
      DEFAULT_CONSTRAINTS).maxPostsPerSubredditPerWeek = 1 ∧
    postsInVenue consultingThreads "r/consulting" = 2 ∧
    checkOverposting consultingThreads = [] := by
  refine ⟨by decide, by decide, ?_⟩
  decide

-- ============================================
-- C3: the validation gate of the planner
-- ============================================

/-- C3: whenever a planning request's post count exceeds the number of
venues times the per-venue weekly cap of the effective (risk-adjusted)
constraints, validation produces a non-empty error list containing the
capacity error; for every random stream, `generateWeeklyCalendar` then
throws the single aggregated multi-line error — so no pipeline stage runs
and no slot is generated. -/
theorem generateWeeklyCalendar_validation_gate (input : PlannerInput)
    (hcap : (input.subreddits.length : ℚ) *
      (applyRiskTolerance (input.constraints.getD DEFAULT_CONSTRAINTS)
        input.riskTolerance).maxPostsPerSubredditPerWeek < input.postsPerWeek) :
    validateInputErrors input
      (applyRiskTolerance (input.constraints.getD DEFAULT_CONSTRAINTS)
        input.riskTolerance) ≠ [] ∧
    ("Cannot schedule " ++ numToString input.postsPerWeek ++ " posts with only " ++
      numToString (input.subreddits.length : ℚ) ++ " subreddits (max " ++
      numToString (applyRiskTolerance (input.constraints.getD DEFAULT_CONSTRAINTS)
        input.riskTolerance).maxPostsPerSubredditPerWeek ++ " per subreddit)") ∈
      validateInputErrors input
        (applyRiskTolerance (input.constraints.getD DEFAULT_CONSTRAINTS)
          input.riskTolerance) ∧
    ∀ (r : Nat → ℚ) (i₀ : Nat),
      generateWeeklyCalendarPlanning input r i₀ =
        Except.error (validationErrorMessage (validateInputErrors input
          (applyRiskTolerance (input.constraints.getD DEFAULT_CONSTRAINTS)
            input.riskTolerance))) := by
  have hmem :
      ("Cannot schedule " ++ numToString input.postsPerWeek ++ " posts with only " ++
        numToString (input.subreddits.length : ℚ) ++ " subreddits (max " ++
        numToString (applyRiskTolerance (input.constraints.getD DEFAULT_CONSTRAINTS)
          input.riskTolerance).maxPostsPerSubredditPerWeek ++ " per subreddit)") ∈
      validateInputErrors input
        (applyRiskTolerance (input.constraints.getD DEFAULT_CONSTRAINTS)
          input.riskTolerance) := by
    unfold validateInputErrors
    rw [if_pos hcap]
    simp [List.mem_append]
  have hne : validateInputErrors input
      (applyRiskTolerance (input.constraints.getD DEFAULT_CONSTRAINTS)
        input.riskTolerance) ≠ [] := by
    intro h
    rw [h] at hmem
    cases hmem
  refine ⟨hne, hmem, ?_⟩
  intro r i₀
  unfold generateWeeklyCalendarPlanning
  rw [if_neg ?_]
  simpa using hne

/-- Witness for C3: one venue, `postsPerWeek = 5`, default cap 2 — the
planner throws the aggregated validation error for the all-zero stream. -/
theorem generateWeeklyCalendar_validation_gate_witness :
    generateWeeklyCalendarPlanning capacityInput randZero 0 =
      Except.error (validationErrorMessage (validateInputErrors capacityInput
        (applyRiskTolerance (capacityInput.constraints.getD DEFAULT_CONSTRAINTS)
          capacityInput.riskTolerance))) :=
  (generateWeeklyCalendar_validation_gate capacityInput (by decide)).2.2 randZero 0

-- ============================================
-- C4: backend failures and the batch loop
-- ============================================

/-- The try/catch loop of `generateThreads` turns every slot into exactly
one thread or one recorded error. -/
theorem generateThreadsLoop_partition (company : Company) (weekNumber : ℚ)
    (preferences : Option GenerationPreferences)
    (constraints? : Option PlannerConstraints)
    (riskTolerance : Option RiskTolerance) (env : GenEnv)
    (slots : List AssignedSlot) (threads : List Thread) (errors : List String)
    (c : GenCounters) :
    (generateThreadsLoop company weekNumber preferences constraints?
        riskTolerance env slots threads errors c).1.length +
      (generateThreadsLoop company weekNumber preferences constraints?
        riskTolerance env slots threads errors c).2.1.length =
    threads.length + errors.length + slots.length := by
  induction slots generalizing threads errors c with
  | nil => simp [generateThreadsLoop]
  | cons slot rest ih =>
    unfold generateThreadsLoop
    cases h : generateThread slot company weekNumber preferences constraints?
        riskTolerance env c with
    | mk res c' =>
      cases res with
      | ok thread =>
        simp only []
        rw [ih]
        simp
        omega
      | error e =>
        simp only []
        rw [ih]
        simp
        omega

/-- C4 (amended): a backend reply that cannot be parsed as the expected
structured shape raises a fatal error for that slot, but `generateThreads`
catches it, records one error entry, drops that slot's thread, and
continues with the remaining slots — every slot yields exactly one thread
or one recorded error, and no placeholder thread is substituted. -/
theorem generateThreads_slot_partition (slots : List AssignedSlot)
    (company : Company) (weekNumber : ℚ)
    (preferences : Option GenerationPreferences)
    (constraints? : Option PlannerConstraints)
    (riskTolerance : Option RiskTolerance) (env : GenEnv) (c : GenCounters) :
    (generateThreads slots company weekNumber preferences constraints?
        riskTolerance env c).1.threads.length +
      (generateThreads slots company weekNumber preferences constraints?
        riskTolerance env c).1.errors.length = slots.length := by
  unfold generateThreads
  have h := generateThreadsLoop_partition company weekNumber preferences
    constraints? riskTolerance env slots [] [] c
  simpa using h

/-- C4 counterexample: in live mode, the first slot's unparseable backend
reply produces a recorded error while generation continues and the second
slot's thread is still produced — the batch is not aborted. -/
theorem generateThreads_continues_after_failure_cex :
    ((generateThreads [cex4SlotFail, cex4SlotOk] { id := "c1", name := "Acme" } 1
        none none none cex4Env ⟨0, 0, 0⟩).1.threads.map
        (fun t => t.post.subredditName) = ["r/beta"]) ∧
    (generateThreads [cex4SlotFail, cex4SlotOk] { id := "c1", name := "Acme" } 1
        none none none cex4Env ⟨0, 0, 0⟩).1.errors =
      ["Failed to generate thread for r/alpha: AI post generation failed for r/alpha: boom"] := by
  constructor <;> decide

-- ============================================
-- C5: MOCK-REPLY COMPANY-NAME SCRUBBING
-- ============================================

/-- `List.getD` at an in-range index is a member of the list. -/
theorem getD_mem_of_lt {α : Type} (l : List α) (d : α) (i : ℕ)
    (h : i < l.length) : l.getD i d ∈ l := by
  rw [List.getD_eq_getElem l d h]
  exact List.getElem_mem h

/-- A canned mock comment always comes from the expert or casual response
pool (the stream value is below 1, so the index draw stays in range). -/
theorem generateMockComment_mem (persona : Persona) (env : GenEnv)
    (c : GenCounters) (hr : env.rand c.rng < 1) :
    (generateMockComment persona env c).1 ∈ expertResponses ++ casualResponses := by
  have hfl : (⌊env.rand c.rng * (3 : ℚ)⌋).toNat < 3 := by
    have h1 : ⌊env.rand c.rng * (3 : ℚ)⌋ < 3 := by
      rw [Int.floor_lt]
      push_cast
      nlinarith
    omega
  unfold generateMockComment nextRand
  by_cases h : persona.postingStyle = PostingStyle.gives_answers
  · simp only [if_pos h]
    exact List.mem_append_left _
      (getD_mem_of_lt _ _ _ (by simpa [expertResponses] using hfl))
  · simp only [if_neg h]
    exact List.mem_append_right _
      (getD_mem_of_lt _ _ _ (by simpa [casualResponses] using hfl))

/-- The mock dedup loop only ever replaces a pool member by another pool
member. -/
theorem dedupMockLoop_mem (persona : Persona) (env : GenEnv)
    (used : List String) (hr : ∀ i, env.rand i < 1) :
    ∀ (fuel : ℕ) (m : String) (c : GenCounters),
      m ∈ expertResponses ++ casualResponses →
      (dedupMockLoop persona env used fuel m c).1 ∈
        expertResponses ++ casualResponses := by
  intro fuel
  induction fuel with
  | zero => intro m c hm; simpa [dedupMockLoop] using hm
  | succ n ih =>
    intro m c hm
    unfold dedupMockLoop
    split
    · exact ih _ _ (generateMockComment_mem _ _ _ (hr _))
    · exact hm

/-- In mock mode the OP follow-up, when produced, carries the canned
follow-up text (a pool member): the company scrub is skipped. -/
theorem generateOPFollowUp_mock_content (post : Post) (comments : List Comment)
    (slot : AssignedSlot) (company : Company) (lastTs : ℚ)
    (constraints : PlannerConstraints) (env : GenEnv) (c : GenCounters)
    (hm : env.mockMode = true) (cm : Comment) (c' : GenCounters)
    (h : generateOPFollowUp post comments slot company lastTs constraints env c =
      (Except.ok cm, c')) :
    cm.content ∈ mockReplyPool := by
  unfold generateOPFollowUp at h
  rw [hm] at h
  simp only [if_true, Bool.not_true, Bool.false_and, Bool.false_eq_true,
    if_false, Prod.mk.injEq, Except.ok.injEq] at h
  obtain ⟨h1, -⟩ := h
  rw [← h1]
  simp [mockReplyPool]

/-- In mock mode with no length clamp, the per-commenter loop only appends
comments whose content is a canned pool member: every live-mode rewrite,
scrub, and regeneration pass is skipped. -/
theorem commentsLoop_mock_mem (post : Post) (company : Company)
    (preferences : Option GenerationPreferences)
    (constraints : PlannerConstraints) (env : GenEnv)
    (mis : List ℕ) (mpi : ℤ)
    (hm : env.mockMode = true)
    (hclamp : preferences.bind (fun p => p.maxCommentLength) = none)
    (hr : ∀ i, env.rand i < 1) :
    ∀ (personas : List Persona) (i : ℕ) (comments : List Comment)
      (used : List String) (lastTs : ℚ) (c : GenCounters)
      (res : List Comment) (ts : ℚ) (c' : GenCounters),
      (∀ cm ∈ comments, cm.content ∈ mockReplyPool) →
      commentsLoop post company preferences constraints env mis mpi
        personas i comments used lastTs c = (Except.ok (res, ts), c') →
      ∀ cm ∈ res, cm.content ∈ mockReplyPool := by
  intro personas
  induction personas with
  | nil =>
    intro i comments used lastTs c res ts c' hacc h
    simp only [commentsLoop, Prod.mk.injEq, Except.ok.injEq] at h
    obtain ⟨⟨h1, -⟩, -⟩ := h
    rw [← h1]
    exact hacc
  | cons p rest ih =>
    intro i comments used lastTs c res ts c' hacc h
    rw [commentsLoop] at h
    rw [hm] at h
    simp only [if_true, hclamp] at h
    refine ih _ _ _ _ _ _ _ _ ?_ h
    intro cm hcm
    rcases List.mem_append.mp hcm with hcm | hcm
    · exact hacc cm hcm
    · rcases List.mem_singleton.mp hcm with rfl
      have hd := dedupMockLoop_mem p env used hr 5
        (generateMockComment p env
          ⟨(generateCommentDelay i false constraints env.rand c.rng).2,
            c.uid, c.ai⟩).1
        (generateMockComment p env
          ⟨(generateCommentDelay i false constraints env.rand c.rng).2,
            c.uid, c.ai⟩).2
        (generateMockComment_mem p env _ (hr _))
      rw [List.mem_append] at hd
      show (dedupMockLoop p env used 5
        (generateMockComment p env
          ⟨(generateCommentDelay i false constraints env.rand c.rng).2,
            c.uid, c.ai⟩).1
        (generateMockComment p env
          ⟨(generateCommentDelay i false constraints env.rand c.rng).2,
            c.uid, c.ai⟩).2).1 ∈ mockReplyPool
      simp only [mockReplyPool, List.mem_append, List.mem_singleton]
      tauto

/-- C5 (amended): in mock mode no company-name scrubbing is applied to the
canned replies at all — every live-mode rewrite, scrub and regeneration
pass in `generateComments` is guarded by `!isMockMode()`.  What does hold
is a verbatim-pool property: with product mentions disallowed by the
preferences and no comment-length clamp, every comment of a successful
mock run is drawn verbatim from the canned reply pool (two members of
which literally name the demo company). -/
theorem generateComments_mock_pool (post : Post) (slot : AssignedSlot)
    (company : Company) (preferences : Option GenerationPreferences)
    (cons? : Option PlannerConstraints) (riskTolerance : Option RiskTolerance)
    (env : GenEnv) (c : GenCounters) (comments : List Comment)
    (c' : GenCounters)
    (hm : env.mockMode = true)
    (hpm : preferences.bind (fun p => p.allowProductMention) = some false)
    (hclamp : preferences.bind (fun p => p.maxCommentLength) = none)
    (hr : ∀ i, env.rand i < 1)
    (h : generateComments post slot company preferences cons? riskTolerance
      env c = (Except.ok comments, c')) :
    ∀ cm ∈ comments, cm.content ∈ mockReplyPool := by
  intro cm hcm
  unfold generateComments at h
  rw [hpm] at h
  simp only [ne_eq, not_true, decide_not, decide_eq_true_eq, not_true_eq_false,
    decide_False, Bool.not_true, Bool.false_and, Bool.false_eq_true, false_and,
    if_false, ite_false, eq_self_iff_true, reduceIte] at h
  split at h
  · exact absurd h (by simp)
  · rename_i cs lastTs c₁ heq
    split at h
    · exact absurd h (by simp)
    · rename_i comments₂ c₂ hAF
      simp only [Prod.mk.injEq, Except.ok.injEq] at h
      obtain ⟨h1, -⟩ := h
      rw [← h1] at hcm
      split at hAF
      · split at hAF
        · exact absurd hAF (by simp)
        · rename_i fu c₃ hfu
          simp only [Prod.mk.injEq, Except.ok.injEq] at hAF
          obtain ⟨h2, -⟩ := hAF
          rw [← h2] at hcm
          rcases List.mem_append.mp hcm with hmem | hmem
          · exact commentsLoop_mock_mem post company preferences _ env _ _
              hm hclamp hr _ _ _ _ _ _ _ _ _ (by intro x hx; cases hx) heq cm
              hmem
          · rcases List.mem_singleton.mp hmem with rfl
            exact generateOPFollowUp_mock_content _ _ _ _ _ _ _ _ hm _ _ hfu
      · simp only [Prod.mk.injEq, Except.ok.injEq] at hAF
        obtain ⟨h2, -⟩ := hAF
        rw [← h2] at hcm
        exact commentsLoop_mock_mem post company preferences _ env _ _
          hm hclamp hr _ _ _ _ _ _ _ _ _ (by intro x hx; cases hx) heq cm hcm

set_option maxRecDepth 200000 in
/-- C5 witness: a concrete mock run with product mentions disallowed whose
single comment the theorem places in the canned pool. -/
theorem generateComments_mock_pool_witness :
    c5wComment.content ∈ mockReplyPool :=
  generateComments_mock_pool cex5Post c5wSlot { id := "c9", name := "Slideforge" }
    (some c5wPrefs) none none cex5Env ⟨0, 0, 0⟩ [c5wComment] ⟨4, 1, 0⟩
    rfl rfl rfl (fun i => by norm_num [cex5Env, randZero]) rfl
    c5wComment (by simp)

set_option maxRecDepth 200000 in
/-- C5 counterexample: under default constraints (no preference record, no
explicit constraints), a mock run whose single commenter is a
`gives_answers` persona finalizes the canned reply that literally names
the company "Slideforge", and the company-name containment check on the
finalized reply text returns `true`, not `false`. -/
theorem mock_reply_retains_company_name_cex :
    (match (generateComments cex5Post cex5Slot
        { id := "c9", name := "Slideforge" } none none none cex5Env
        ⟨0, 0, 0⟩).1 with
      | Except.ok comments => comments.map (fun (cm : Comment) =>
          strIncludes (toLowerStr cm.content) (toLowerStr "Slideforge"))
      | Except.error _ => ([] : List Bool)) = [true] := by
  decide

-- ============================================
-- C6: THE MATCHER'S VENUE CAP
-- ============================================

/-- The first components of the subreddit scoring map are the scored list
itself. -/
theorem scoreSubreddits_map_fst (usage : List (String × SubUsage)) (r : Nat → ℚ) :
    ∀ (subs : List Subreddit) (i : Nat),
      (scoreSubreddits usage r subs i).1.map Prod.fst = subs := by
  intro subs
  induction subs with
  | nil => intro i; rfl
  | cons s ss ih => intro i; simp [scoreSubreddits, ih]

/-- Stable insertion adds no new elements. -/
theorem mem_insertScoredDesc {α : Type} (x y : α × ℚ) :
    ∀ (l : List (α × ℚ)), y ∈ insertScoredDesc x l → y = x ∨ y ∈ l := by
  intro l
  induction l with
  | nil => intro h; simpa [insertScoredDesc] using h
  | cons z zs ih =>
    intro h
    unfold insertScoredDesc at h
    split at h
    · rcases List.mem_cons.mp h with rfl | h
      · exact Or.inl rfl
      · exact Or.inr h
    · rcases List.mem_cons.mp h with rfl | h
      · exact Or.inr (List.mem_cons_self _ _)
      · rcases ih h with h' | h'
        · exact Or.inl h'
        · exact Or.inr (List.mem_cons_of_mem _ h')

/-- Elements of the insertion-sort worker come from the accumulator or the
input. -/
theorem mem_sortScoredDescAux {α : Type} (y : α × ℚ) :
    ∀ (l acc : List (α × ℚ)), y ∈ sortScoredDescAux acc l → y ∈ acc ∨ y ∈ l := by
  intro l
  induction l with
  | nil => intro acc h; exact Or.inl (by simpa [sortScoredDescAux] using h)
  | cons x xs ih =>
    intro acc h
    unfold sortScoredDescAux at h
    rcases ih _ h with h' | h'
    · rcases mem_insertScoredDesc x y _ h' with rfl | h''
      · exact Or.inr (List.mem_cons_self _ _)
      · exact Or.inl h''
    · exact Or.inr (List.mem_cons_of_mem _ h')

/-- The stable descending sort adds no new elements. -/
theorem mem_sortScoredDesc {α : Type} (y : α × ℚ) (l : List (α × ℚ))
    (h : y ∈ sortScoredDesc l) : y ∈ l := by
  rcases mem_sortScoredDescAux y l [] h with h' | h'
  · cases h'
  · exact h'

/-- A venue returned by `selectSubreddit` passed the `canPostToSubreddit`
filter. -/
theorem selectSubreddit_some_canPost (subreddits : List Subreddit)
    (usage : List (String × SubUsage)) (d : ℚ)
    (constraints : PlannerConstraints) (r : Nat → ℚ) (i i' : Nat)
    (sub : Subreddit)
    (h : selectSubreddit subreddits usage d constraints r i = (some sub, i')) :
    canPostToSubreddit sub.id usage constraints d = true := by
  simp only [selectSubreddit] at h
  split at h
  · exact absurd (congrArg Prod.fst h) (by simp)
  · simp only [Prod.mk.injEq] at h
    obtain ⟨h1, -⟩ := h
    rcases hh : (sortScoredDesc (scoreSubreddits usage r (subreddits.filter
        (fun sub => canPostToSubreddit sub.id usage constraints d)) i).1).head?
      with _ | p
    · rw [hh] at h1; cases h1
    · rw [hh] at h1
      simp only [Option.map_some', Option.some.injEq] at h1
      have hp : p ∈ sortScoredDesc (scoreSubreddits usage r (subreddits.filter
          (fun sub => canPostToSubreddit sub.id usage constraints d)) i).1 :=
        List.mem_of_mem_head? (by rw [hh]; rfl)
      have hmem := mem_sortScoredDesc _ _ hp
      have hfst : p.1 ∈ subreddits.filter
          (fun sub => canPostToSubreddit sub.id usage constraints d) := by
        rw [← scoreSubreddits_map_fst usage r (subreddits.filter
          (fun sub => canPostToSubreddit sub.id usage constraints d)) i]
        exact List.mem_map_of_mem Prod.fst hmem
      rw [h1] at hfst
      exact (List.mem_filter.mp hfst).2

/-- Appending one matched slot adds one to its venue's count and nothing
to any other venue. -/
theorem matchedSlotsFor_append_single (l : List MatchedSlot) (m : MatchedSlot)
    (v : String) :
    matchedSlotsFor (l ++ [m]) v =
      matchedSlotsFor l v + (if m.subreddit.id = v then 1 else 0) := by
  simp only [matchedSlotsFor, List.filter_append, List.length_append]
  split <;> simp_all

/-- One matcher step preserves the usage-tracker/count correspondence and
the per-venue run-level cap (the integer cap is at least 1 because a venue
absent from the usage map is always eligible). -/
theorem matchStep_inv (subreddits : List Subreddit) (keywords : List Keyword)
    (fp : List (String × ℚ)) (constraints : PlannerConstraints) (r : Nat → ℚ)
    (N : ℕ) (hN : 1 ≤ N)
    (hcap : constraints.maxPostsPerSubredditPerWeek = (N : ℚ))
    (st : MatchState) (slot : TimeSlot)
    (hA : ∀ v, matchedSlotsFor st.matchedSlots v =
      ((alistGet st.subredditUsage v).map (fun u => u.postsThisWeek)).getD 0)
    (hB : ∀ v, matchedSlotsFor st.matchedSlots v ≤ N) :
    (∀ v, matchedSlotsFor
        (matchStep subreddits keywords fp constraints r st slot).matchedSlots v =
      ((alistGet (matchStep subreddits keywords fp constraints r st
          slot).subredditUsage v).map (fun u => u.postsThisWeek)).getD 0) ∧
    (∀ v, matchedSlotsFor
        (matchStep subreddits keywords fp constraints r st slot).matchedSlots v
      ≤ N) := by
  unfold matchStep
  rcases hsel : selectSubreddit subreddits st.subredditUsage slot.date
      constraints r st.rngIdx with ⟨osel, i₁⟩
  cases osel with
  | none => exact ⟨hA, hB⟩
  | some sub =>
    have hcan := selectSubreddit_some_canPost _ _ _ _ _ _ _ _ hsel
    constructor
    · intro v
      show matchedSlotsFor (st.matchedSlots ++ [_]) v = _
      rw [matchedSlotsFor_append_single]
      show _ = ((alistGet (alistSet st.subredditUsage sub.id _) v).map
        (fun u => u.postsThisWeek)).getD 0
      rw [alistGet_set]
      by_cases hv : v = sub.id
      · rw [if_pos hv, if_pos (by rw [hv])]
        simp only [Option.map_some', Option.getD_some]
        rw [hA v, hv]
        cases halist : alistGet st.subredditUsage sub.id <;> simp [halist]
      · rw [if_neg hv, if_neg (fun hh => hv hh.symm), hA v]
        ring
    · intro v
      show matchedSlotsFor (st.matchedSlots ++ [_]) v ≤ N
      rw [matchedSlotsFor_append_single]
      by_cases hv : sub.id = v
      · rw [if_pos hv]
        have hlt : matchedSlotsFor st.matchedSlots v < N := by
          unfold canPostToSubreddit at hcan
          rw [hA v, ← hv]
          cases halist : alistGet st.subredditUsage sub.id with
          | none => simpa using hN
          | some u =>
            rw [halist] at hcan
            split at hcan
            · rename_i heq
              exact absurd heq (by simp)
            · rename_i u' heq
              injection heq with hu
              subst hu
              split at hcan
              · cases hcan
              · rename_i hge
                rw [hcap] at hge
                simp only [Option.map_some', Option.getD_some]
                have : (u.postsThisWeek : ℚ) < (N : ℚ) := lt_of_not_le
                  (fun hle => hge (by exact_mod_cast hle))
                exact_mod_cast this
        omega
      · rw [if_neg hv]
        have := hB v
        omega

/-- The matcher's slot fold keeps every venue at or below the run-level
integer cap. -/
theorem matchFold_inv (subreddits : List Subreddit) (keywords : List Keyword)
    (fp : List (String × ℚ)) (constraints : PlannerConstraints) (r : Nat → ℚ)
    (N : ℕ) (hN : 1 ≤ N)
    (hcap : constraints.maxPostsPerSubredditPerWeek = (N : ℚ)) :
    ∀ (slots : List TimeSlot) (st : MatchState),
      (∀ v, matchedSlotsFor st.matchedSlots v =
        ((alistGet st.subredditUsage v).map (fun u => u.postsThisWeek)).getD 0) →
      (∀ v, matchedSlotsFor st.matchedSlots v ≤ N) →
      ∀ v, matchedSlotsFor
        (slots.foldl (matchStep subreddits keywords fp constraints r)
          st).matchedSlots v ≤ N := by
  intro slots
  induction slots with
  | nil => intro st hA hB v; exact hB v
  | cons slot rest ih =>
    intro st hA hB v
    have h := matchStep_inv subreddits keywords fp constraints r N hN hcap
      st slot hA hB
    exact ih _ h.1 h.2 v

/-- One matcher step produces exactly one matched slot or one skip
diagnostic. -/
theorem matchStep_len (subreddits : List Subreddit) (keywords : List Keyword)
    (fp : List (String × ℚ)) (constraints : PlannerConstraints) (r : Nat → ℚ)
    (st : MatchState) (slot : TimeSlot) :
    (matchStep subreddits keywords fp constraints r st slot).matchedSlots.length +
      (matchStep subreddits keywords fp constraints r st slot).topicsSkipped.length =
    st.matchedSlots.length + st.topicsSkipped.length + 1 := by
  unfold matchStep
  rcases hsel : selectSubreddit subreddits st.subredditUsage slot.date
      constraints r st.rngIdx with ⟨osel, i₁⟩
  cases osel <;> simp <;> omega

/-- Over the whole fold, matched slots plus skip diagnostics account for
every input slot. -/
theorem matchFold_len (subreddits : List Subreddit) (keywords : List Keyword)
    (fp : List (String × ℚ)) (constraints : PlannerConstraints) (r : Nat → ℚ) :
    ∀ (slots : List TimeSlot) (st : MatchState),
      (slots.foldl (matchStep subreddits keywords fp constraints r)
          st).matchedSlots.length +
        (slots.foldl (matchStep subreddits keywords fp constraints r)
          st).topicsSkipped.length =
      st.matchedSlots.length + st.topicsSkipped.length + slots.length := by
  intro slots
  induction slots with
  | nil => intro st; simp
  | cons slot rest ih =>
    intro st
    simp only [List.foldl_cons, List.length_cons]
    rw [ih]
    rw [matchStep_len]
    omega

/-- C6 (amended): the matcher enforces only the run-level
`maxPostsPerSubredditPerWeek` of its effective constraints — it never
consults `getSubredditConstraints`, so sensitivity tiers and per-venue
presets do not shape the cap it applies.  When that run-level cap is a
positive integer `N`, no venue receives more than `N` matched slots, and
every input slot is either matched or dropped with a skip diagnostic. -/
theorem matchSubreddits_run_cap_and_skip (slots : List TimeSlot)
    (subreddits : List Subreddit) (keywords : List Keyword)
    (previousWeeks : List CalendarHistory) (cons? : Option PlannerConstraints)
    (r : Nat → ℚ) (i₀ : Nat) (N : ℕ) (hN : 1 ≤ N)
    (hcap : (cons?.getD DEFAULT_CONSTRAINTS).maxPostsPerSubredditPerWeek = (N : ℚ)) :
    (∀ v, matchedSlotsFor
      (matchSubreddits slots subreddits keywords previousWeeks cons? r
        i₀).1.slots v ≤ N) ∧
    (matchSubreddits slots subreddits keywords previousWeeks cons? r
        i₀).1.slots.length +
      (matchSubreddits slots subreddits keywords previousWeeks cons? r
        i₀).1.topicsSkipped.length = slots.length := by
  constructor
  · intro v
    show matchedSlotsFor (matchFinalState slots subreddits keywords
      previousWeeks (cons?.getD DEFAULT_CONSTRAINTS) r i₀).matchedSlots v ≤ N
    unfold matchFinalState
    exact matchFold_inv subreddits keywords _ _ r N hN hcap slots _
      (fun v => by simp [matchedSlotsFor, alistGet])
      (fun v => by simp [matchedSlotsFor]) v
  · show (matchFinalState slots subreddits keywords previousWeeks
        (cons?.getD DEFAULT_CONSTRAINTS) r i₀).matchedSlots.length +
      (matchFinalState slots subreddits keywords previousWeeks
        (cons?.getD DEFAULT_CONSTRAINTS) r i₀).topicsSkipped.length = slots.length
    unfold matchFinalState
    rw [matchFold_len]
    simp

/-- C6 witness: the three-slot run against the default cap 2 — no venue
exceeds 2 matched slots and every slot is accounted for. -/
theorem matchSubreddits_run_cap_and_skip_witness :
    matchedSlotsFor (matchSubreddits cex6Slots [subHigh, subOther] [] [] none
      cex6Rand 0).1.slots "sh" ≤ 2 ∧
    (matchSubreddits cex6Slots [subHigh, subOther] [] [] none cex6Rand
        0).1.slots.length +
      (matchSubreddits cex6Slots [subHigh, subOther] [] [] none cex6Rand
        0).1.topicsSkipped.length = cex6Slots.length :=
  ⟨(matchSubreddits_run_cap_and_skip cex6Slots [subHigh, subOther] [] [] none
      cex6Rand 0 2 (by norm_num) (by norm_num [DEFAULT_CONSTRAINTS])).1 "sh",
   (matchSubreddits_run_cap_and_skip cex6Slots [subHigh, subOther] [] [] none
      cex6Rand 0 2 (by norm_num) (by norm_num [DEFAULT_CONSTRAINTS])).2⟩

set_option maxRecDepth 200000 in
/-- C6 counterexample: the high-sensitivity venue's effective cap (as
computed by `getSubredditConstraints`) is 1, yet the matcher assigns it
two of three slots — it compares against the run-level cap of 2 only, and
no slot is skipped even though the companion venue stayed available. -/
theorem matchSubreddits_exceeds_effective_cap_cex :
    (getSubredditConstraints subHigh
      DEFAULT_CONSTRAINTS).maxPostsPerSubredditPerWeek = 1 ∧
    matchedSlotsFor (matchSubreddits cex6Slots [subHigh, subOther] [] [] none
      cex6Rand 0).1.slots "sh" = 2 ∧
    (matchSubreddits cex6Slots [subHigh, subOther] [] [] none cex6Rand
      0).1.topicsSkipped = [] := by
  refine ⟨by decide, by decide, by decide⟩

-- ============================================
-- C1: REACTOR-LIST BOUNDS OF THE PERSONA ASSIGNER
-- ============================================

/-- The greedy selection loop never grows past an upper bound on its
target count. -/
theorem greedySelectAux_length_le (count : ℚ) (c : ℕ) (hc : count ≤ (c : ℚ)) :
    ∀ (l sel : List Persona), sel.length ≤ c →
      (greedySelectAux count sel l).length ≤ c := by
  intro l
  induction l with
  | nil => intro sel hsel; simpa [greedySelectAux] using hsel
  | cons p ps ih =>
    intro sel hsel
    unfold greedySelectAux
    split
    · simpa using hsel
    · rename_i hlt
      have hslt : sel.length < c := by
        have h1 : (sel.length : ℚ) < count :=
          lt_of_not_le (fun hle => hlt (by exact_mod_cast hle))
        exact_mod_cast lt_of_lt_of_le h1 hc
      cases sel with
      | nil => exact ih [p] (by simp at hslt ⊢; omega)
      | cons last rest =>
        show (if (last.id == p.id) = true then
            greedySelectAux count (last :: rest) ps
          else greedySelectAux count (p :: last :: rest) ps).length ≤ c
        split
        · exact ih (last :: rest) hsel
        · exact ih (p :: last :: rest) (by simp at hslt ⊢; omega)

/-- The greedy selection loop picks only accumulator or candidate
elements. -/
theorem greedySelectAux_mem (count : ℚ) :
    ∀ (l sel : List Persona) (x : Persona), x ∈ greedySelectAux count sel l →
      x ∈ sel ∨ x ∈ l := by
  intro l
  induction l with
  | nil => intro sel x hx; exact Or.inl (by simpa [greedySelectAux] using hx)
  | cons p ps ih =>
    intro sel x hx
    unfold greedySelectAux at hx
    split at hx
    · exact Or.inl (by simpa using hx)
    · cases sel with
      | nil =>
        rcases ih _ _ hx with h | h
        · rcases List.mem_cons.mp h with rfl | h
          · exact Or.inr (List.mem_cons_self _ _)
          · cases h
        · exact Or.inr (List.mem_cons_of_mem _ h)
      | cons last rest =>
        rw [show (match last :: rest with
            | last_1 :: _ =>
              if (last_1.id == p.id) = true then
                greedySelectAux count (last :: rest) ps
              else greedySelectAux count (p :: last :: rest) ps
            | [] => greedySelectAux count (p :: last :: rest) ps) =
          (if (last.id == p.id) = true then
              greedySelectAux count (last :: rest) ps
            else greedySelectAux count (p :: last :: rest) ps) from rfl] at hx
        split at hx
        · rcases ih _ _ hx with h | h
          · exact Or.inl h
          · exact Or.inr (List.mem_cons_of_mem _ h)
        · rcases ih _ _ hx with h | h
          · rcases List.mem_cons.mp h with rfl | h
            · exact Or.inr (List.mem_cons_self _ _)
            · exact Or.inl h
          · exact Or.inr (List.mem_cons_of_mem _ h)

/-- The first components of the commenter scoring map are the candidate
list itself. -/
theorem scoreCommenters_map_fst (op : Persona)
    (usage : List (String × PersonaUsageTracker)) (r : Nat → ℚ) :
    ∀ (l : List Persona) (i : Nat),
      (scoreCommenters op usage r l i).1.map Prod.fst = l := by
  intro l
  induction l with
  | nil => intro i; rfl
  | cons p ps ih => intro i; simp [scoreCommenters, ih]

/-- The strict commenter filter excludes the OP. -/
theorem strictEligible_ne_op (op : Persona) (personas : List Persona)
    (usage : List (String × PersonaUsageTracker)) (pairings : List String)
    (constraints : PlannerConstraints) (x : Persona)
    (hx : x ∈ strictEligibleCommenters op personas usage pairings constraints) :
    x.id ≠ op.id := by
  have hf := (List.mem_filter.mp hx).2
  intro heq
  rw [if_pos (by simp [heq])] at hf
  cases hf

/-- The relaxed commenter filter also excludes the OP. -/
theorem relaxedEligible_ne_op (op : Persona) (personas : List Persona)
    (usage : List (String × PersonaUsageTracker))
    (constraints : PlannerConstraints) (x : Persona)
    (hx : x ∈ relaxedEligibleCommenters op personas usage constraints) :
    x.id ≠ op.id := by
  have hf := (List.mem_filter.mp hx).2
  intro heq
  rw [if_pos (by simp [heq])] at hf
  cases hf

/-- No selected commenter carries the OP's id — under either filter. -/
theorem selectCommenters_mem_ne_op (op : Persona) (personas : List Persona)
    (count : ℚ) (usage : List (String × PersonaUsageTracker))
    (pairings : List String) (constraints : PlannerConstraints)
    (r : Nat → ℚ) (i : Nat) (x : Persona)
    (hx : x ∈ (selectCommenters op personas count usage pairings constraints
      r i).1.1) :
    x.id ≠ op.id := by
  simp only [selectCommenters] at hx
  set E := strictEligibleCommenters op personas usage pairings constraints
    with hE
  set R := if E.isEmpty then
      relaxedEligibleCommenters op personas usage constraints
    else E with hR
  by_cases hemp : R.isEmpty
  · rw [if_pos hemp] at hx
    cases hx
  · rw [if_neg hemp] at hx
    rcases greedySelectAux_mem _ _ _ _ hx with h | h
    · cases h
    · rcases List.mem_map.mp h with ⟨pr, hpr, hfst⟩
      have hmem := mem_sortScoredDesc _ _ hpr
      have hx' : x ∈ R := by
        rw [← hfst, ← scoreCommenters_map_fst op usage r R i]
        exact List.mem_map_of_mem Prod.fst hmem
      rw [hR] at hx'
      split at hx'
      · exact relaxedEligible_ne_op _ _ _ _ _ hx'
      · exact strictEligible_ne_op _ _ _ _ _ _ hx'

/-- The commenter selection respects any upper bound on its target
count. -/
theorem selectCommenters_length_le (op : Persona) (personas : List Persona)
    (count : ℚ) (usage : List (String × PersonaUsageTracker))
    (pairings : List String) (constraints : PlannerConstraints)
    (r : Nat → ℚ) (i : Nat) (c : ℕ) (hc : count ≤ (c : ℚ)) :
    (selectCommenters op personas count usage pairings constraints
      r i).1.1.length ≤ c := by
  simp only [selectCommenters]
  set E := strictEligibleCommenters op personas usage pairings constraints
    with hE
  set R := if E.isEmpty then
      relaxedEligibleCommenters op personas usage constraints
    else E with hR
  by_cases hemp : R.isEmpty
  · rw [if_pos hemp]
    simp
  · rw [if_neg hemp]
    exact greedySelectAux_length_le count c hc _ [] (by simp)

/-- One assigner step preserves the OP-exclusion and reactor-count
invariants (the jittered commenter count stays below the thread cap when
the stream is below 1). -/
theorem assignStep_inv (personas : List Persona)
    (constraints : PlannerConstraints) (r : Nat → ℚ) (k : ℕ) (hk : 2 ≤ k)
    (hcap : constraints.maxPersonasPerThread = (k : ℚ))
    (hn : 2 ≤ personas.length) (hr : ∀ i, r i < 1)
    (st : AssignState) (slot : MatchedSlot)
    (hinv : ∀ s ∈ st.assignedSlots,
      (∀ c ∈ s.commenterPersonas, c.id ≠ s.opPersona.id) ∧
      s.commenterPersonas.length ≤ k - 1) :
    ∀ s ∈ (assignStep personas constraints r st slot).assignedSlots,
      (∀ c ∈ s.commenterPersonas, c.id ≠ s.opPersona.id) ∧
      s.commenterPersonas.length ≤ k - 1 := by
  unfold assignStep
  rcases hsel : selectOP slot personas st.usage constraints r st.rngIdx with
    ⟨osel, i₁⟩
  cases osel with
  | none => exact hinv
  | some op =>
    intro s hs
    rcases List.mem_append.mp hs with h | h
    · exact hinv s h
    · rcases List.mem_singleton.mp h with rfl
      constructor
      · intro c hc
        exact selectCommenters_mem_ne_op _ _ _ _ _ _ _ _ _ hc
      · apply selectCommenters_length_le
        have hm1 : (1 : ℚ) ≤ min (constraints.maxPersonasPerThread - 1)
            (min ((personas.length : ℚ) - 1) 3) := by
          rw [hcap]
          apply le_min
          · have h2k : (2 : ℚ) ≤ (k : ℚ) := by exact_mod_cast hk
            linarith
          · apply le_min
            · have h2n : (2 : ℚ) ≤ (personas.length : ℚ) := by exact_mod_cast hn
              linarith
            · norm_num
        set m := min (constraints.maxPersonasPerThread - 1)
          (min ((personas.length : ℚ) - 1) 3) with hmdef
        have hmk : m ≤ (k : ℚ) - 1 := by
          rw [hmdef, hcap]
          exact min_le_left _ _
        have hflt : ⌊r i₁ * m⌋ < (k : ℤ) - 1 := by
          apply Int.floor_lt.mpr
          push_cast
          calc r i₁ * m < 1 * m :=
                mul_lt_mul_of_pos_right (hr i₁) (by linarith)
            _ = m := one_mul m
            _ ≤ (k : ℚ) - 1 := hmk
        show (1 : ℚ) + jsFloor (r i₁ * m) ≤ ((k - 1 : ℕ) : ℚ)
        unfold jsFloor
        have hle : ⌊r i₁ * m⌋ ≤ (k : ℤ) - 2 := by omega
        have h2 : ((⌊r i₁ * m⌋ : ℤ) : ℚ) ≤ (((k : ℤ) - 2 : ℤ) : ℚ) := by
          exact_mod_cast hle
        have hc2 : ((k - 1 : ℕ) : ℚ) = (k : ℚ) - 1 := by
          have h1k : (1 : ℕ) ≤ k := by omega
          push_cast [h1k]
          ring
        rw [hc2]
        push_cast at h2
        linarith

/-- The assigner's slot fold preserves the invariants. -/
theorem assignFold_inv (personas : List Persona)
    (constraints : PlannerConstraints) (r : Nat → ℚ) (k : ℕ) (hk : 2 ≤ k)
    (hcap : constraints.maxPersonasPerThread = (k : ℚ))
    (hn : 2 ≤ personas.length) (hr : ∀ i, r i < 1) :
    ∀ (slots : List MatchedSlot) (st : AssignState),
      (∀ s ∈ st.assignedSlots,
        (∀ c ∈ s.commenterPersonas, c.id ≠ s.opPersona.id) ∧
        s.commenterPersonas.length ≤ k - 1) →
      ∀ s ∈ (slots.foldl (assignStep personas constraints r)
          st).assignedSlots,
        (∀ c ∈ s.commenterPersonas, c.id ≠ s.opPersona.id) ∧
        s.commenterPersonas.length ≤ k - 1 := by
  intro slots
  induction slots with
  | nil => intro st hinv; exact hinv
  | cons slot rest ih =>
    intro st hinv
    exact ih _
      (assignStep_inv personas constraints r k hk hcap hn hr st slot hinv)

/-- C1 (amended): in every slot of a successful `assignPersonas` run, no
reactor carries the author's id; and when `maxPersonasPerThread` is an
integer `k ≥ 2` and the random stream stays below 1, each reactor list
has at most `k - 1` entries.  The claimed lower bound of 1 does not hold:
a slot's reactor list is empty whenever every other persona is
comment-capped, and with `maxPersonasPerThread = 1` a slot still receives
one reactor (more than `maxPersonasPerThread - 1 = 0`). -/
theorem assignPersonas_reactor_bounds (personas : List Persona)
    (slots : List MatchedSlot) (cons? : Option PlannerConstraints)
    (r : Nat → ℚ) (i₀ : Nat) (k : ℕ) (hk : 2 ≤ k)
    (hcap : (cons?.getD DEFAULT_CONSTRAINTS).maxPersonasPerThread = (k : ℚ))
    (hr : ∀ i, r i < 1) (res : PersonaAssignerResult) (i' : Nat)
    (h : assignPersonas personas slots cons? r i₀ = Except.ok (res, i')) :
    ∀ s ∈ res.slots,
      (∀ c ∈ s.commenterPersonas, c.id ≠ s.opPersona.id) ∧
      s.commenterPersonas.length ≤ k - 1 := by
  unfold assignPersonas at h
  split at h
  · cases h
  · rename_i hlen
    simp only [Except.ok.injEq, Prod.mk.injEq] at h
    obtain ⟨h1, -⟩ := h
    rw [← h1]
    have hn : 2 ≤ personas.length := by omega
    exact assignFold_inv personas _ r k hk hcap hn hr slots _
      (fun s hs => by cases hs)

set_option maxRecDepth 400000 in
/-- C1 witness: the two-persona run assigns `b` as the sole reactor under
author `a` — the theorem yields `b ≠ a` and the count bound `1 ≤ 3 - 1`. -/
theorem assignPersonas_reactor_bounds_witness :
    (mkPersona "b" "ub").id ≠ (mkPersona "a" "ua").id ∧
    ([mkPersona "b" "ub"] : List Persona).length ≤ 3 - 1 := by
  have h := assignPersonas_reactor_bounds
    [mkPersona "a" "ua", mkPersona "b" "ub"] [slotAt 0] none randZero 0 3
    (by norm_num) (by norm_num [DEFAULT_CONSTRAINTS])
    (fun i => by norm_num [randZero]) c1wRes 4 rfl
  have h2 := h c1wSlot (by simp [c1wRes])
  exact ⟨h2.1 (mkPersona "b" "ub") (by simp [c1wSlot]), h2.2⟩

set_option maxRecDepth 400000 in
/-- C1 counterexample: with the weekly comment cap set to 0 every
candidate is filtered, and the produced slot has an empty reactor list
(violating the claimed lower bound of 1); with `maxPersonasPerThread = 1`
the produced slot has one reactor, exceeding
`maxPersonasPerThread - 1 = 0` (violating the claimed upper bound). -/
theorem assignPersonas_reactor_bounds_cex :
    (match assignPersonas personas4 [slotAt 0] (some consNoComments)
        randZero 0 with
      | Except.ok res => res.1.slots.map
          (fun (s : AssignedSlot) => s.commenterPersonas.length)
      | Except.error _ => [99]) = [0] ∧
    (match assignPersonas personas4 [slotAt 0] (some consOnePersona)
        randZero 0 with
      | Except.ok res => res.1.slots.map
          (fun (s : AssignedSlot) => s.commenterPersonas.length)
      | Except.error _ => [99]) = [1] ∧
    consOnePersona.maxPersonasPerThread - 1 = 0 := by
  refine ⟨by decide, by decide, by decide⟩

-- ============================================
-- C2: PAIRING UNIQUENESS
-- ============================================

/-- Adding a key to the pairing set puts it in the set. -/
theorem strSetAdd_mem_self (s : List String) (k : String) : k ∈ strSetAdd s k := by
  unfold strSetAdd
  split
  · rename_i h
    simpa using h
  · exact List.mem_append_right _ (List.mem_singleton.mpr rfl)

/-- Adding a key to the pairing set keeps every existing member. -/
theorem strSetAdd_mono (s : List String) (k x : String) (hx : x ∈ s) :
    x ∈ strSetAdd s k := by
  unfold strSetAdd
  split
  · exact hx
  · exact List.mem_append_left _ hx

/-- Folded set-insertion keeps every existing member. -/
theorem foldl_strSetAdd_mono {α : Type} (f : α → String) :
    ∀ (l : List α) (s : List String) (x : String), x ∈ s →
      x ∈ l.foldl (fun acc c => strSetAdd acc (f c)) s := by
  intro l
  induction l with
  | nil => intro s x hx; exact hx
  | cons c cs ih => intro s x hx; exact ih _ _ (strSetAdd_mono _ _ _ hx)

/-- Folded set-insertion contains each inserted key. -/
theorem foldl_strSetAdd_mem {α : Type} (f : α → String) :
    ∀ (l : List α) (s : List String) (c : α), c ∈ l →
      f c ∈ l.foldl (fun acc c => strSetAdd acc (f c)) s := by
  intro l
  induction l with
  | nil => intro s c hc; cases hc
  | cons d ds ih =>
    intro s c hc
    rcases List.mem_cons.mp hc with rfl | hc
    · exact foldl_strSetAdd_mono f ds _ _ (strSetAdd_mem_self _ _)
    · exact ih _ _ hc

/-- The commenter-pair double loop keeps every existing key. -/
theorem addCommenterPairs_mono :
    ∀ (l : List Persona) (p : List String) (x : String), x ∈ p →
      x ∈ addCommenterPairs p l := by
  intro l
  induction l with
  | nil => intro p x hx; exact hx
  | cons c rest ih =>
    intro p x hx
    unfold addCommenterPairs
    exact ih _ _ (foldl_strSetAdd_mono _ _ _ _ hx)

/-- `updatePairings` keeps every existing key. -/
theorem updatePairings_mono (p : List String) (op : Persona)
    (commenters : List Persona) (x : String) (hx : x ∈ p) :
    x ∈ updatePairings p op commenters := by
  unfold updatePairings
  exact addCommenterPairs_mono _ _ _ (foldl_strSetAdd_mono _ _ _ _ hx)

/-- `updatePairings` records every author–reactor key of the slot. -/
theorem updatePairings_mem_author (p : List String) (op : Persona)
    (commenters : List Persona) (c : Persona) (hc : c ∈ commenters) :
    createPairingKey op.id c.id ∈ updatePairings p op commenters := by
  unfold updatePairings
  exact addCommenterPairs_mono _ _ _ (foldl_strSetAdd_mem _ _ _ _ hc)

/-- When the strict filter was used (the relax flag is false) and
`noRepeatedPairingsPerWeek` is on, no selected commenter's author–reactor
key was already recorded. -/
theorem selectCommenters_strict_not_paired (op : Persona)
    (personas : List Persona) (count : ℚ)
    (usage : List (String × PersonaUsageTracker)) (pairings : List String)
    (constraints : PlannerConstraints) (r : Nat → ℚ) (i : Nat)
    (hnorep : constraints.noRepeatedPairingsPerWeek = true)
    (hrelax : (selectCommenters op personas count usage pairings constraints
      r i).1.2 = false)
    (c : Persona)
    (hc : c ∈ (selectCommenters op personas count usage pairings constraints
      r i).1.1) :
    createPairingKey op.id c.id ∉ pairings := by
  simp only [selectCommenters] at hc hrelax
  set E := strictEligibleCommenters op personas usage pairings constraints
    with hE
  have hEne : E.isEmpty = false := by
    by_cases hemp : (if E.isEmpty then
        relaxedEligibleCommenters op personas usage constraints
      else E).isEmpty
    · rw [if_pos hemp] at hrelax; exact hrelax
    · rw [if_neg hemp] at hrelax; exact hrelax
  rw [hEne] at hc
  simp only [Bool.false_eq_true, if_false, hEne] at hc
  rcases greedySelectAux_mem _ _ _ _ hc with h | h
  · cases h
  · rcases List.mem_map.mp h with ⟨pr, hpr, hfst⟩
    have hmem := mem_sortScoredDesc _ _ hpr
    have hcE : c ∈ E := by
      rw [← hfst, ← scoreCommenters_map_fst op usage r E i]
      exact List.mem_map_of_mem Prod.fst hmem
    have hpred := (List.mem_filter.mp hcE).2
    by_cases h1 : (c.id == op.id) = true
    · rw [if_pos h1] at hpred; cases hpred
    · rw [if_neg h1] at hpred
      by_cases h2 : (match alistGet usage c.id with
          | some tracker =>
            decide ((tracker.commentsThisWeek : ℚ) ≥
              constraints.maxCommentsPerPersonaPerWeek)
          | none => false) = true
      · rw [if_pos h2] at hpred; cases hpred
      · rw [if_neg h2] at hpred
        unfold canPersonasInteract at hpred
        rw [hnorep] at hpred
        simp only [Bool.not_true, Bool.false_eq_true, if_false] at hpred
        split at hpred
        · cases hpred
        · rename_i hcont
          exact fun hmem2 => hcont (by simpa using hmem2)

/-- One assigner step (whose relax flag stayed false) keeps all recorded
author–reactor keys in the pairing set and keeps the per-slot key lists
pairwise disjoint. -/
theorem assignStep_pairs_inv (personas : List Persona)
    (constraints : PlannerConstraints) (r : Nat → ℚ)
    (hnorep : constraints.noRepeatedPairingsPerWeek = true)
    (st : AssignState) (slot : MatchedSlot)
    (hrelaxStep : (assignStep personas constraints r st slot).relaxedEver = false)
    (hI1 : ∀ s ∈ st.assignedSlots, ∀ key ∈ slotAuthorKeys s,
      key ∈ st.pairingsThisWeek)
    (hI2 : (st.assignedSlots.map slotAuthorKeys).Pairwise
      (fun l₁ l₂ => ∀ key ∈ l₁, key ∉ l₂)) :
    (∀ s ∈ (assignStep personas constraints r st slot).assignedSlots,
      ∀ key ∈ slotAuthorKeys s,
        key ∈ (assignStep personas constraints r st slot).pairingsThisWeek) ∧
    ((assignStep personas constraints r st slot).assignedSlots.map
      slotAuthorKeys).Pairwise (fun l₁ l₂ => ∀ key ∈ l₁, key ∉ l₂) := by
  unfold assignStep at hrelaxStep ⊢
  rcases hsel : selectOP slot personas st.usage constraints r st.rngIdx with
    ⟨osel, i₁⟩
  rw [hsel] at hrelaxStep
  cases osel with
  | none => exact ⟨hI1, hI2⟩
  | some op =>
    have hor : (st.relaxedEver || (selectCommenters op personas
        (1 + jsFloor (r i₁ * min (constraints.maxPersonasPerThread - 1)
          (min ((personas.length : ℚ) - 1) 3))) st.usage st.pairingsThisWeek
        constraints r (i₁ + 1)).1.2) = false := hrelaxStep
    have hselrelax : (selectCommenters op personas
        (1 + jsFloor (r i₁ * min (constraints.maxPersonasPerThread - 1)
          (min ((personas.length : ℚ) - 1) 3))) st.usage st.pairingsThisWeek
        constraints r (i₁ + 1)).1.2 = false :=
      (Bool.or_eq_false_iff.mp hor).2
    constructor
    · intro s hs key hkey
      rcases List.mem_append.mp hs with h | h
      · exact updatePairings_mono _ _ _ _ (hI1 s h key hkey)
      · rcases List.mem_singleton.mp h with rfl
        rcases List.mem_map.mp hkey with ⟨c, hc, hfc⟩
        rw [← hfc]
        exact updatePairings_mem_author _ _ _ _ hc
    · rw [List.map_append]
      apply List.pairwise_append.mpr
      refine ⟨hI2, List.pairwise_singleton _ _, ?_⟩
      intro l₁ hl₁ l₂ hl₂ key hkey
      rcases List.mem_singleton.mp hl₂ with rfl
      rcases List.mem_map.mp hl₁ with ⟨s, hs, rfl⟩
      have hkp := hI1 s hs key hkey
      intro hknew
      rcases List.mem_map.mp hknew with ⟨c, hc, hfc⟩
      have hnp := selectCommenters_strict_not_paired op personas _ st.usage
        st.pairingsThisWeek constraints r (i₁ + 1) hnorep hselrelax c hc
      rw [← hfc] at hkp
      exact hnp hkp

/-- The relax flag is monotone along the assigner's fold. -/
theorem relaxedEver_mono (personas : List Persona)
    (constraints : PlannerConstraints) (r : Nat → ℚ) :
    ∀ (slots : List MatchedSlot) (st : AssignState), st.relaxedEver = true →
      (slots.foldl (assignStep personas constraints r) st).relaxedEver = true := by
  intro slots
  induction slots with
  | nil => intro st h; exact h
  | cons slot rest ih =>
    intro st h
    apply ih
    unfold assignStep
    rcases hsel : selectOP slot personas st.usage constraints r st.rngIdx with
      ⟨osel, i₁⟩
    cases osel with
    | none => exact h
    | some op =>
      show (st.relaxedEver || _) = true
      rw [h]
      rfl

/-- The assigner's fold keeps the per-slot author–reactor key lists
pairwise disjoint as long as the relax flag never fires. -/
theorem assignFold_pairs (personas : List Persona)
    (constraints : PlannerConstraints) (r : Nat → ℚ)
    (hnorep : constraints.noRepeatedPairingsPerWeek = true) :
    ∀ (slots : List MatchedSlot) (st : AssignState),
      (slots.foldl (assignStep personas constraints r) st).relaxedEver = false →
      (∀ s ∈ st.assignedSlots, ∀ key ∈ slotAuthorKeys s,
        key ∈ st.pairingsThisWeek) →
      (st.assignedSlots.map slotAuthorKeys).Pairwise
        (fun l₁ l₂ => ∀ key ∈ l₁, key ∉ l₂) →
      ((slots.foldl (assignStep personas constraints r) st).assignedSlots.map
        slotAuthorKeys).Pairwise (fun l₁ l₂ => ∀ key ∈ l₁, key ∉ l₂) := by
  intro slots
  induction slots with
  | nil => intro st hrel hI1 hI2; exact hI2
  | cons slot rest ih =>
    intro st hrel hI1 hI2
    rw [List.foldl_cons] at hrel
    have hstep_relax :
        (assignStep personas constraints r st slot).relaxedEver = false := by
      rcases Bool.eq_false_or_eq_true
        ((assignStep personas constraints r st slot).relaxedEver) with h | h
      · rw [relaxedEver_mono personas constraints r rest _ h] at hrel
        cases hrel
      · exact h
    obtain ⟨hI1', hI2'⟩ := assignStep_pairs_inv personas constraints r hnorep
      st slot hstep_relax hI1 hI2
    exact ih _ hrel hI1' hI2'

/-- C2 (amended): provided the strict filter never fell back to the
relaxed one (`relaxedEver = false` — the run analogue of "sufficient
persona count"), the author–reactor pairing keys of distinct slots are
disjoint: no author–reactor pair recorded once is used again.  The
original claim is false for reactor–reactor pairs: `canPersonasInteract`
is only consulted for OP↔candidate, so a pair recorded in one slot can
reappear as a reactor–reactor pair of a later slot. -/
theorem assignPersonas_no_repeated_author_pairs (personas : List Persona)
    (slots : List MatchedSlot) (cons? : Option PlannerConstraints)
    (r : Nat → ℚ) (i₀ : Nat) (res : PersonaAssignerResult) (i' : Nat)
    (hnorep : (cons?.getD DEFAULT_CONSTRAINTS).noRepeatedPairingsPerWeek = true)
    (hrelax : (assignFinalState personas slots
      (cons?.getD DEFAULT_CONSTRAINTS) r i₀).relaxedEver = false)
    (h : assignPersonas personas slots cons? r i₀ = Except.ok (res, i')) :
    (res.slots.map slotAuthorKeys).Pairwise
      (fun l₁ l₂ => ∀ key ∈ l₁, key ∉ l₂) := by
  unfold assignPersonas at h
  split at h
  · cases h
  · simp only [Except.ok.injEq, Prod.mk.injEq] at h
    obtain ⟨h1, -⟩ := h
    rw [← h1]
    unfold assignFinalState at hrelax
    exact assignFold_pairs personas _ r hnorep slots _ hrelax
      (fun s hs => by cases hs) (by simp)

set_option maxRecDepth 400000 in
/-- C2 witness: in the four-persona run, the author–reactor key `a+x` of
the first slot does not recur among the second slot's author–reactor
keys. -/
theorem assignPersonas_no_repeated_author_pairs_witness :
    createPairingKey "a" "x" ∈ slotAuthorKeys c2Slot1 ∧
    createPairingKey "a" "x" ∉ slotAuthorKeys c2Slot2 := by
  have h := assignPersonas_no_repeated_author_pairs personas4
    [slotAt 0, slotAt 172800000] none randPairing 0 c2wRes 16
    (by decide) (by decide) rfl
  rcases List.pairwise_cons.mp h with ⟨h1, -⟩
  refine ⟨by decide, ?_⟩
  exact h1 (slotAuthorKeys c2Slot2) (by simp [c2wRes])
    (createPairingKey "a" "x") (by decide)

set_option maxRecDepth 400000 in
/-- C2 counterexample: with the default `noRepeatedPairingsPerWeek = true`,
four personas and no relaxed fallback, the unordered pair `{a, x}` occurs
twice across the run's slots — once as an author–reactor pair of the
first slot and once as a reactor–reactor pair of the second. -/
theorem assignPersonas_repeated_pair_cex :
    DEFAULT_CONSTRAINTS.noRepeatedPairingsPerWeek = true ∧
    (assignFinalState personas4 [slotAt 0, slotAt 172800000]
      DEFAULT_CONSTRAINTS randPairing 0).relaxedEver = false ∧
    (match assignPersonas personas4 [slotAt 0, slotAt 172800000] none
        randPairing 0 with
      | Except.ok res => (runPairs res.1.slots).count (normPair "a" "x")
      | Except.error _ => 0) = 2 := by
  refine ⟨by decide, by decide, by decide⟩

end RM
